import Mathlib

/-!
Verification of the Signal Aggregation & Deterministic Fingerprint Synthesis
Engine (`bff.js`): the probe executor / assembler (`generate`), the stability
classifier and canonicalizer (`getHash` of the three engine classes), and the
multi-engine combiner (`CombinedCSSFingerprint`).

The JavaScript source is shallowly embedded:
* JavaScript values that can appear in a fingerprint record are modelled by
  the inductive type `JSValue`.  Numbers are modelled as integers (every
  numeric field the hash path consumes is integral in the states we reason
  about; `toFixed` is modelled on integers accordingly).
* Strings are modelled as sequences of Unicode code points; `charCodeAt` is
  modelled by the code point.  The two agree on the Basic Multilingual Plane,
  which covers every string the canonicalizer produces or that we evaluate.
* Machine arithmetic of the djb2 loop (`<<`, `>>> 0`) is modelled with
  explicit two's-complement conversions `toInt32` / `toUint32` over `Int`
  and `Nat`.
* Fallible evaluation (property access on `undefined`/`null`, calling array
  methods on non-arrays, a probe body throwing) is modelled in
  `Except String`; `Promise.all` rejection in `generate` is the propagation
  of `Except.error`.
-/

/-- A JavaScript value as stored in a fingerprint record: `undefined`,
`null`, booleans, (integral) numbers, strings, arrays, and plain objects
(field lists in insertion order). -/
inductive JSValue where
  | vundefined : JSValue
  | vnull : JSValue
  | vbool : Bool → JSValue
  | vnum  : Int → JSValue
  | vstr  : String → JSValue
  | vlist : List JSValue → JSValue
  | vobj  : List (String × JSValue) → JSValue
deriving Inhabited

mutual

/-- JavaScript `ToString` as used by template-literal interpolation:
`undefined`/`null` print their names, arrays join their elements with `,`
(with `undefined`/`null` elements printing as the empty string), objects
print as `[object Object]`. -/
def jsToString : JSValue → String
  | .vundefined => "undefined"
  | .vnull => "null"
  | .vbool b => if b then "true" else "false"
  | .vnum n => toString n
  | .vstr s => s
  | .vlist xs => jsListJoin xs
  | .vobj _ => "[object Object]"

/-- `Array.prototype.toString`, i.e. `join(",")`: `undefined` and `null`
elements become empty strings. -/
def jsListJoin : List JSValue → String
  | [] => ""
  | x :: xs =>
    (match x with
     | .vundefined => ""
     | .vnull => ""
     | v => jsToString v)
    ++ (match xs with
        | [] => ""
        | _ => "," ++ jsListJoin xs)

end

/-- JavaScript truthiness: `undefined`, `null`, `false`, `0` and `""` are
falsy; everything else (including empty arrays and objects) is truthy. -/
def jsTruthy : JSValue → Bool
  | .vundefined => false
  | .vnull => false
  | .vbool b => b
  | .vnum n => n != 0
  | .vstr s => s ≠ ""
  | .vlist _ => true
  | .vobj _ => true

/-- The JavaScript `||` operator: the left operand if truthy, otherwise the
right operand. -/
def jsOr (a b : JSValue) : JSValue :=
  if jsTruthy a then a else b

/-- Assoc-list lookup for object fields (first binding wins, matching the
uniqueness of JavaScript object keys). -/
def jsLookup (k : String) : List (String × JSValue) → JSValue
  | [] => .vundefined
  | (k', v) :: fs => if k = k' then v else jsLookup k fs

/-- Plain property access `base.k`: throws a `TypeError` when the base is
`undefined` or `null`; reads the field of an object; yields `undefined` for
properties of other primitives (none of the accessed names exist on them). -/
def jsGet (v : JSValue) (k : String) : Except String JSValue :=
  match v with
  | .vundefined => .error "TypeError: cannot read properties of undefined"
  | .vnull => .error "TypeError: cannot read properties of null"
  | .vobj fs => .ok (jsLookup k fs)
  | _ => .ok .vundefined

/-- Optional chaining `base?.k`: `undefined` when the base is `undefined` or
`null`, otherwise the property. -/
def optGet (v : JSValue) (k : String) : JSValue :=
  match v with
  | .vundefined => .vundefined
  | .vnull => .vundefined
  | .vobj fs => jsLookup k fs
  | _ => .vundefined

/-- The `length` property of a value that is not `undefined`/`null`
(arrays: element count; strings: length; others: no such property, hence
`undefined`). -/
def propLength : JSValue → JSValue
  | .vlist xs => .vnum xs.length
  | .vstr s => .vnum s.length
  | _ => .vundefined

/-- `Object.keys`: field names of an object in insertion order; the call
sites in the source only apply it to objects (after an `|| {}` default),
other cases are unreachable there and yield `[]`. -/
def jsKeys : JSValue → List String
  | .vobj fs => fs.map Prod.fst
  | _ => []

/-- The comparison used by the default `Array.prototype.sort`: elements are
compared as strings (code-unit order, which is code-point order on the BMP). -/
def jsSortLE (a b : JSValue) : Prop := jsToString a ≤ jsToString b

instance : DecidableRel jsSortLE := fun a b =>
  inferInstanceAs (Decidable (jsToString a ≤ jsToString b))

/-- The string an element of the `stableFeatures` array contributes to
`join("|")`: `undefined` and `null` join as the empty string. -/
def jsElemString : JSValue → String
  | .vundefined => ""
  | .vnull => ""
  | v => jsToString v

/-- `Array.prototype.join(sep)` on an already materialized element list. -/
def joinElems (sep : String) (xs : List JSValue) : String :=
  String.intercalate sep (xs.map jsElemString)

/-- Default `Array.prototype.sort` on arrays: a stable sort by the elements'
string forms; calling `sort` on a non-array throws. -/
def jsSort : JSValue → Except String JSValue
  | .vlist xs => .ok (.vlist (List.insertionSort jsSortLE xs))
  | _ => .error "TypeError: sort is not a function"

/-- `Array.prototype.join(sep)`; on a non-array value the method does not
exist and the call throws. -/
def jsJoin (sep : String) : JSValue → Except String String
  | .vlist xs => .ok (joinElems sep xs)
  | _ => .error "TypeError: join is not a function"

/-- The default `sort()` applied to plain strings, as used on the
lexicographically sorted `Object.keys` lists. -/
def sortedKeys (ks : List String) : List String :=
  List.insertionSort (· ≤ ·) ks

/-- `n.toFixed(d)` for the integral numbers of our model: the decimal
rendering followed by `d` zeros; on a non-number the method does not exist. -/
def jsToFixed (d : Nat) : JSValue → Except String JSValue
  | .vnum n => .ok (.vstr (toString n ++ "." ++ String.mk (List.replicate d '0')))
  | _ => .error "TypeError: toFixed is not a function"

/-- Optional call `base?.toFixed(d)`: skipped (yielding `undefined`) when the
base is `undefined`/`null`. -/
def optToFixed (d : Nat) : JSValue → Except String JSValue
  | .vundefined => .ok .vundefined
  | .vnull => .ok .vundefined
  | v => jsToFixed d v

/-- `Array.prototype.slice(0, n)` (also defined on strings); on other values
the method does not exist and the call throws. -/
def jsSlice (n : Nat) : JSValue → Except String JSValue
  | .vlist xs => .ok (.vlist (xs.take n))
  | .vstr s => .ok (.vstr (String.mk (s.data.take n)))
  | _ => .error "TypeError: slice is not a function"

/-- Escape for `JSON.stringify` string rendering (quote and backslash; no
other escapable characters occur in the states we evaluate). -/
def jsonEscape (s : String) : String :=
  String.mk (s.data.foldr (fun c acc =>
    match c with
    | '"' => '\\' :: '"' :: acc
    | '\\' => '\\' :: '\\' :: acc
    | c => c :: acc) [])

mutual

/-- `JSON.stringify`: `none` models the call returning `undefined` (only for
the top-level `undefined`, which the `|| {}` defaults make unreachable). -/
def jsonStr : JSValue → Option String
  | .vundefined => none
  | .vnull => some "null"
  | .vbool b => some (if b then "true" else "false")
  | .vnum n => some (toString n)
  | .vstr s => some ("\"" ++ jsonEscape s ++ "\"")
  | .vlist xs => some ("[" ++ jsonArrElems xs ++ "]")
  | .vobj fs => some ("\x7b" ++ jsonObjFields fs ++ "\x7d")

/-- Array elements of `JSON.stringify`: `undefined` elements render `null`. -/
def jsonArrElems : List JSValue → String
  | [] => ""
  | x :: xs =>
    (match jsonStr x with
     | some s => s
     | none => "null")
    ++ (match xs with
        | [] => ""
        | _ => "," ++ jsonArrElems xs)

/-- Object fields of `JSON.stringify`: fields whose value renders to
`undefined` are omitted. -/
def jsonObjFields : List (String × JSValue) → String
  | [] => ""
  | (k, v) :: fs =>
    match jsonStr v with
    | none => jsonObjFields fs
    | some sv =>
      let rest := jsonObjFields fs
      "\"" ++ jsonEscape k ++ "\":" ++ sv
        ++ (if rest = "" then "" else "," ++ rest)

end

/-! ## The djb2-variant hash fold (`getHash`, lines 776-783 / 1344-1354 /
1808-1816) -/

/-- `ToUint32`, the `>>> 0` conversion: the representative of `x` modulo
`2^32` in `[0, 2^32)`. -/
def toUint32 (x : Int) : Nat := (x % 4294967296).toNat

/-- `ToInt32`: the representative of `x` modulo `2^32` in `[-2^31, 2^31)`,
as applied by the `<<` operator to its operand and its result. -/
def toInt32 (x : Int) : Int :=
  if x % 4294967296 < 2147483648 then x % 4294967296
  else x % 4294967296 - 4294967296

/-- One iteration of the hash loop:
`hash = ((hash << 5) + hash) + str.charCodeAt(i); hash = hash >>> 0;`.
`hash << 5` converts `hash` to `Int32`, multiplies by `32` and truncates to
`Int32`; the additions are exact (the magnitudes stay below `2^53`); `>>> 0`
converts the sum to `Uint32`. -/
def hashStep (h c : Nat) : Nat :=
  toUint32 (toInt32 (toInt32 ((h : Int)) * 32) + (h : Int) + (c : Int))

/-- The full hash loop over the character codes, starting from `5381`. -/
def jsHashFold (codes : List Nat) : Nat := codes.foldl hashStep 5381

/-- The character codes of a string (code points; equal to the UTF-16 units
of `charCodeAt` on the BMP). -/
def charCodes (s : String) : List Nat := s.data.map Char.toNat

/-- Base-16 digit extraction with explicit fuel (any fuel above the number
itself is enough, since the argument shrinks by a factor of 16 each step). -/
def hexDigitsFuel : Nat → Nat → List Char
  | 0, _ => []
  | fuel + 1, n =>
    if n < 16 then [Nat.digitChar n]
    else hexDigitsFuel fuel (n / 16) ++ [Nat.digitChar (n % 16)]

/-- `hexDigits n` : the digits of `n` in base 16, most significant first,
lowercase — the digit list behind `Number.prototype.toString(16)`. -/
def hexDigits (n : Nat) : List Char := hexDigitsFuel (n + 1) n

/-- `hash.toString(16)`: natural-length lowercase hexadecimal. -/
def jsHashHex (n : Nat) : String := String.mk (hexDigits n)

/-- The composition performed at the end of every `getHash`: fold the djb2
variant over the canonical string and render the result in hexadecimal. -/
def hashString (s : String) : String := jsHashHex (jsHashFold (charCodes s))

/-! ## The reference djb2 specification (spec section 4.4) -/

/-- The specification's step: `h` becomes `(33 * h + c) mod 2^32`. -/
def djb2Step (h c : Nat) : Nat := (33 * h + c) % 4294967296

/-- The specification's fold, from seed `5381`. -/
def djb2Fold (codes : List Nat) : Nat := codes.foldl djb2Step 5381

/-- The sixteen lowercase hexadecimal digit characters. -/
def hexChars : List Char := "0123456789abcdef".data

/-! ## AdvancedBrowserFingerprint.getHash (lines 708-783)

The stability classifier and canonicalizer of the main engine: the
`stableFeatures` array literal, its `join("|")`, and the djb2 fold.  The
eighteen reads of `this.fingerprint.<key>` are gathered by `stableFeatures`
(in first-use order) and passed to `stableFeaturesAux`, which performs the
element computations in source order; all the reads are pure, so the
hoisting preserves the source's evaluation order of effects. -/

def stableFeaturesAux
    (fWebglRenderer fWebglVendor fWebgl fAudio fCanvas fHardwareConcurrency
     fDeviceMemory fScreen fTimezone fLanguages fMathConstants
     fCanvasTextMetrics fNavigator fMaxTouchPoints fSpeechSynthesis fPlugins
     fErrorStack fDomRect : Except String JSValue) :
    Except String (List JSValue) := do
  let webglRenderer ← fWebglRenderer
  let webglVendor ← fWebglVendor
  let webgl ← fWebgl
  let audio ← fAudio
  let canvas ← fCanvas
  let hardwareConcurrency ← fHardwareConcurrency
  let deviceMemory ← fDeviceMemory
  let screen ← fScreen
  let timezone ← fTimezone
  let languages ← fLanguages
  let mathConstants ← fMathConstants
  let canvasTextMetrics ← fCanvasTextMetrics
  let nav ← fNavigator
  let maxTouchPoints ← fMaxTouchPoints
  let speechSynthesis ← fSpeechSynthesis
  let plugins ← fPlugins
  let errorStack ← fErrorStack
  let domRect ← fDomRect
  let sortedExt ← jsSort (jsOr (optGet webgl "extensions") (.vlist []))
  let extJoined ← jsJoin "," sortedExt
  let audioFixed ← optToFixed 2 (optGet audio "audioSum")
  let langJoined ← jsJoin "," (jsOr (optGet languages "languages") (.vlist []))
  pure [
    .vstr ("webgl:" ++ jsToString webglRenderer),
    .vstr ("webgl_vendor:" ++ jsToString webglVendor),
    jsOr (optGet webgl "version") (.vstr ""),
    jsOr (optGet webgl "shadingLanguageVersion") (.vstr ""),
    .vstr extJoined,
    .vstr ("audio:" ++ jsToString (jsOr audioFixed (.vstr ""))),
    .vstr ("audio_sr:" ++ jsToString (jsOr (optGet audio "sampleRate") (.vstr ""))),
    .vstr ("audio_ch:" ++ jsToString (jsOr (optGet audio "maxChannelCount") (.vstr ""))),
    .vstr ("canvas:" ++ jsToString (jsOr (optGet canvas "hash") (.vstr ""))),
    .vstr ("hw_cores:" ++ jsToString (jsOr hardwareConcurrency (.vstr ""))),
    .vstr ("hw_mem:" ++ jsToString (jsOr deviceMemory (.vstr ""))),
    .vstr ("screen:" ++ jsToString (optGet screen "width") ++ "x"
      ++ jsToString (optGet screen "height")),
    .vstr ("screen_depth:" ++ jsToString (optGet screen "colorDepth")),
    .vstr ("screen_dpr:" ++ jsToString (optGet screen "devicePixelRatio")),
    .vstr ("tz:" ++ jsToString (jsOr (optGet timezone "timezone") (.vstr ""))),
    .vstr ("tz_offset:" ++ jsToString (jsOr (optGet timezone "offset") (.vstr ""))),
    .vstr ("lang:" ++ langJoined),
    .vstr ("math_tan:" ++ jsToString (jsOr (optGet mathConstants "tan") (.vstr ""))),
    .vstr ("math_sin:" ++ jsToString (jsOr (optGet mathConstants "sin") (.vstr ""))),
    .vstr ("math_acos:" ++ jsToString (jsOr (optGet mathConstants "acos") (.vstr ""))),
    (match jsonStr (jsOr canvasTextMetrics (.vobj [])) with
     | some s => .vstr s
     | none => .vundefined),
    .vstr ("platform:" ++ jsToString (jsOr (optGet nav "platform") (.vstr ""))),
    .vstr ("vendor:" ++ jsToString (jsOr (optGet nav "vendor") (.vstr ""))),
    .vstr ("touch:" ++ jsToString (jsOr maxTouchPoints (.vnum 0))),
    .vstr ("speech:" ++ jsToString (propLength (jsOr speechSynthesis (.vlist [])))),
    .vstr ("plugins:" ++ jsToString (propLength (jsOr plugins (.vlist [])))),
    .vstr ("error:" ++ jsToString (jsOr (optGet errorStack "format") (.vstr ""))),
    .vstr ("rect:" ++ jsToString (jsOr (optGet domRect "width") (.vstr "")) ++ "x"
      ++ jsToString (jsOr (optGet domRect "height") (.vstr "")))
  ]

namespace AdvancedBrowserFingerprint

/-- The `stableFeatures` array of `AdvancedBrowserFingerprint.getHash`, as a
function of the `this.fingerprint` state. -/
def stableFeatures (s : JSValue) : Except String (List JSValue) :=
  stableFeaturesAux
    (jsGet s "webglRenderer") (jsGet s "webglVendor") (jsGet s "webgl")
    (jsGet s "audio") (jsGet s "canvas") (jsGet s "hardwareConcurrency")
    (jsGet s "deviceMemory") (jsGet s "screen") (jsGet s "timezone")
    (jsGet s "languages") (jsGet s "mathConstants") (jsGet s "canvasTextMetrics")
    (jsGet s "navigator") (jsGet s "maxTouchPoints") (jsGet s "speechSynthesis")
    (jsGet s "plugins") (jsGet s "errorStack") (jsGet s "domRect")

/-- `AdvancedBrowserFingerprint.getHash`: join the stable features with `|`
and fold the djb2 variant over the canonical string. -/
def getHash (s : JSValue) : Except String String := do
  let fs ← stableFeatures s
  pure (hashString (joinElems "|" fs))

end AdvancedBrowserFingerprint

/-- Optional chain `base?.length` followed by nothing: `undefined` when the
base is `undefined`/`null`, otherwise the `length` property. -/
def optLength : JSValue → JSValue
  | .vundefined => .vundefined
  | .vnull => .vundefined
  | v => propLength v

/-- The element list of a value known to be an array (the result of a
successful `sort()`); other cases are unreachable at the call sites. -/
def jsListOf : JSValue → List JSValue
  | .vlist xs => xs
  | _ => []

/-! ## CSSFingerprint.getHash (lines 1287-1354)

The basic CSS engine's classifier: fixed scalar features, then the
alphabetically sorted spreads over `cssProperties`, `mediaQueries`,
`cssFilters`, `cssBlending`, `fontMetrics` (widths re-rendered with
`toFixed(1)`) and `emojiRendering`, then `boxShadow`/`borderRadius`. -/

def cssStableFeaturesAux
    (fScrollbar fCssGrid fCssVariables fFontList fCssProperties fMediaQueries
     fCssFilters fCssBlending fFontMetrics fEmojiRendering fBoxShadow
     fBorderRadius : Except String JSValue) :
    Except String (List JSValue) := do
  let scrollbar ← fScrollbar
  let cssGrid ← fCssGrid
  let cssVariables ← fCssVariables
  let fontList ← fFontList
  let cssProperties ← fCssProperties
  let mediaQueries ← fMediaQueries
  let cssFilters ← fCssFilters
  let cssBlending ← fCssBlending
  let fontMetrics ← fFontMetrics
  let emojiRendering ← fEmojiRendering
  let boxShadow ← fBoxShadow
  let borderRadius ← fBorderRadius
  let propFeatures := (sortedKeys (jsKeys (jsOr cssProperties (.vobj [])))).map
    (fun k => JSValue.vstr ("prop:" ++ k ++ ":" ++ jsToString (optGet cssProperties k)))
  let mqFeatures := (sortedKeys (jsKeys (jsOr mediaQueries (.vobj [])))).map
    (fun k => JSValue.vstr ("mq:" ++ k ++ ":" ++ jsToString (optGet mediaQueries k)))
  let filterFeatures := (sortedKeys (jsKeys (jsOr cssFilters (.vobj [])))).map
    (fun k => JSValue.vstr ("filter:" ++ k ++ ":" ++ jsToString (optGet cssFilters k)))
  let blendFeatures := (sortedKeys (jsKeys (jsOr cssBlending (.vobj [])))).map
    (fun k => JSValue.vstr ("blend:" ++ k ++ ":" ++ jsToString (optGet cssBlending k)))
  let fmFeatures ← (sortedKeys (jsKeys (jsOr fontMetrics (.vobj [])))).mapM
    (fun k => do
      let w ← jsGet (optGet fontMetrics k) "width"
      let t ← jsToFixed 1 w
      pure (JSValue.vstr ("fm:" ++ k ++ ":" ++ jsToString t)))
  let emojiFeatures := (sortedKeys (jsKeys (jsOr emojiRendering (.vobj [])))).map
    (fun k => JSValue.vstr ("emoji:" ++ k ++ ":" ++ jsToString (optGet emojiRendering k)))
  pure ([
    JSValue.vstr ("sb:" ++ jsToString (jsOr (optGet scrollbar "width") (.vnum 0))
      ++ "x" ++ jsToString (jsOr (optGet scrollbar "height") (.vnum 0))),
    JSValue.vstr ("grid:" ++ jsToString (jsOr (optGet cssGrid "supported") (.vbool false))),
    JSValue.vstr ("subgrid:" ++ jsToString (jsOr (optGet cssGrid "subgrid") (.vbool false))),
    JSValue.vstr ("vars:" ++ jsToString (jsOr (optGet cssVariables "supported") (.vbool false))),
    JSValue.vstr ("fonts:" ++ jsToString (jsOr (optLength fontList) (.vnum 0)))]
    ++ propFeatures ++ mqFeatures ++ filterFeatures ++ blendFeatures
    ++ fmFeatures ++ emojiFeatures
    ++ [
    JSValue.vstr ("shadow:" ++ jsToString (jsOr boxShadow (.vstr ""))),
    JSValue.vstr ("radius:" ++ jsToString (jsOr (optGet borderRadius "borderRadius") (.vstr "")))])

namespace CSSFingerprint

/-- The `stableFeatures` array of `CSSFingerprint.getHash`, as a function of
the `this.fingerprint` state. -/
def stableFeatures (s : JSValue) : Except String (List JSValue) :=
  cssStableFeaturesAux
    (jsGet s "scrollbar") (jsGet s "cssGrid") (jsGet s "cssVariables")
    (jsGet s "fontList") (jsGet s "cssProperties") (jsGet s "mediaQueries")
    (jsGet s "cssFilters") (jsGet s "cssBlending") (jsGet s "fontMetrics")
    (jsGet s "emojiRendering") (jsGet s "boxShadow") (jsGet s "borderRadius")

/-- `CSSFingerprint.getHash`: join with `|` and fold the djb2 variant. -/
def getHash (s : JSValue) : Except String String := do
  let fs ← stableFeatures s
  pure (hashString (joinElems "|" fs))

end CSSFingerprint

/-! ## AdvancedCSSFingerprint.getHash (lines 1782-1817) -/

def advStableFeaturesAux
    (fFonts fColorScheme fPrefersReducedMotion fPrefersContrast fForcedColors
     fInvertedColors fOrientation fPointerType fHoverCapability fDisplayMode
     fScreenResolution fDevicePixelRatio fColorGamut fDynamicRange fMonochrome
     fGrid fUpdate : Except String JSValue) :
    Except String (List JSValue) := do
  let fonts ← fFonts
  let colorScheme ← fColorScheme
  let prefersReducedMotion ← fPrefersReducedMotion
  let prefersContrast ← fPrefersContrast
  let forcedColors ← fForcedColors
  let invertedColors ← fInvertedColors
  let orientation ← fOrientation
  let pointerType ← fPointerType
  let hoverCapability ← fHoverCapability
  let displayMode ← fDisplayMode
  let screenResolution ← fScreenResolution
  let devicePixelRatio ← fDevicePixelRatio
  let colorGamut ← fColorGamut
  let dynamicRange ← fDynamicRange
  let monochrome ← fMonochrome
  let grid ← fGrid
  let update ← fUpdate
  let sliced ← jsSlice 10 (jsOr fonts (.vlist []))
  let sorted ← jsSort sliced
  let fontFeatures := (jsListOf sorted).map
    (fun f => JSValue.vstr ("font:" ++ jsToString f))
  pure ([
    JSValue.vstr ("fonts:" ++ jsToString (jsOr (optLength fonts) (.vnum 0))),
    JSValue.vstr ("colorScheme:" ++ jsToString colorScheme),
    JSValue.vstr ("reducedMotion:" ++ jsToString prefersReducedMotion),
    JSValue.vstr ("contrast:" ++ jsToString prefersContrast),
    JSValue.vstr ("forcedColors:" ++ jsToString forcedColors),
    JSValue.vstr ("invertedColors:" ++ jsToString invertedColors),
    JSValue.vstr ("orientation:" ++ jsToString orientation),
    JSValue.vstr ("pointer:" ++ jsToString pointerType),
    JSValue.vstr ("hover:" ++ jsToString hoverCapability),
    JSValue.vstr ("displayMode:" ++ jsToString displayMode),
    JSValue.vstr ("resolution:" ++ jsToString (optGet screenResolution "width")
      ++ "x" ++ jsToString (optGet screenResolution "height")),
    JSValue.vstr ("dpr:" ++ jsToString devicePixelRatio),
    JSValue.vstr ("colorGamut:" ++ jsToString colorGamut),
    JSValue.vstr ("dynamicRange:" ++ jsToString dynamicRange),
    JSValue.vstr ("monochrome:" ++ jsToString monochrome),
    JSValue.vstr ("grid:" ++ jsToString grid),
    JSValue.vstr ("update:" ++ jsToString update)]
    ++ fontFeatures)

namespace AdvancedCSSFingerprint

/-- The `features` array of `AdvancedCSSFingerprint.getHash`, as a function
of the `this.results` state. -/
def stableFeatures (s : JSValue) : Except String (List JSValue) :=
  advStableFeaturesAux
    (jsGet s "fonts") (jsGet s "colorScheme") (jsGet s "prefersReducedMotion")
    (jsGet s "prefersContrast") (jsGet s "forcedColors") (jsGet s "invertedColors")
    (jsGet s "orientation") (jsGet s "pointerType") (jsGet s "hoverCapability")
    (jsGet s "displayMode") (jsGet s "screenResolution") (jsGet s "devicePixelRatio")
    (jsGet s "colorGamut") (jsGet s "dynamicRange") (jsGet s "monochrome")
    (jsGet s "grid") (jsGet s "update")

/-- `AdvancedCSSFingerprint.getHash`: join with `|` and fold the djb2
variant. -/
def getHash (s : JSValue) : Except String String := do
  let fs ← stableFeatures s
  pure (hashString (joinElems "|" fs))

end AdvancedCSSFingerprint

/-! ## CombinedCSSFingerprint (lines 1836-1876)

`generate` awaits the two engines' `generate()` calls; in the embedding the
two resulting data objects are the parameters `basic` and `advanced` (the
probe layer is the external environment).  The per-engine `hash` fields are
computed — exactly as in the source — on freshly constructed engine
instances whose state is the empty object, not on the awaited data. -/

/-- The record returned by `CombinedCSSFingerprint.generate`. -/
structure CombinedResult where
  basicData : JSValue
  basicHash : String
  advancedData : JSValue
  advancedHash : String
  combined : String

namespace CombinedCSSFingerprint

/-- `getCombinedHash(basic, advanced)`: hash each engine's data through a
fresh instance whose state is set to that data, join the two hash strings
with `|`, and fold the same djb2 variant over the result. -/
def getCombinedHash (basic advanced : JSValue) : Except String String := do
  let basicHash ← CSSFingerprint.getHash basic
  let advancedHash ← AdvancedCSSFingerprint.getHash advanced
  pure (hashString (basicHash ++ "|" ++ advancedHash))

/-- `CombinedCSSFingerprint.generate`: pairs each engine's data with the
hash of a fresh (empty-state) instance, then computes the combined hash of
the actual data. -/
def generate (basic advanced : JSValue) : Except String CombinedResult := do
  let basicFreshHash ← CSSFingerprint.getHash (.vobj [])
  let advancedFreshHash ← AdvancedCSSFingerprint.getHash (.vobj [])
  let combined ← getCombinedHash basic advanced
  pure ⟨basic, basicFreshHash, advanced, advancedFreshHash, combined⟩

end CombinedCSSFingerprint

/-! ## AdvancedBrowserFingerprint.generate (lines 15-83)

The probe executor.  Each probe body (the interaction with the host DOM /
navigator — out of scope per the spec, specified only at its boundary) is a
field of `ProbeEnv` holding the body's outcome: `Except.ok v` when the body
runs to completion with value `v`, `Except.error e` when it throws or its
awaited operation rejects.  The probe wrapper functions below reproduce the
control structure of the source around those bodies: fourteen of the thirty
probes wrap their whole body in `try { ... } catch (e) { return null; }`
(each `await` inside the `try`, so every failure is caught); fourteen have
no such wrapper and propagate a throw to `Promise.all`; and two — webrtc
and speechSynthesis — have the `try`/`catch` but return a `new Promise`
from inside the `try` WITHOUT awaiting it, so only their synchronous prefix
is guarded: a synchronous throw inside the Promise executor becomes a
rejected promise that is returned while the `try` exits normally, bypassing
the `catch` and rejecting the probe.  Those two probes are therefore
modelled with two environment fields each (the guarded prefix and the
unguarded executor).  `detectPlugins` is additionally modelled down to its
loop over `navigator.plugins`, since only the host collection access can
throw there. -/

/-- One entry of the host's `navigator.plugins` collection. -/
structure PluginInfo where
  name : String
  description : String
  filename : String

/-- The host-interaction outcomes a single `generate()` run observes, one
field per probe body (plus the raw `navigator.plugins` collection).  The
webrtc and speechSynthesis probes contribute two fields each: `...Setup` is
the synchronous prefix inside the `try` (`.error e` = it threw, caught by
the `catch`; `.ok (some v)` = it returned `v` early; `.ok none` = it
reached `return new Promise(executor)`), and `...Executor` is the outcome
of the promise (`.error e` = the executor threw synchronously, rejecting
the returned promise outside the reach of the `catch`; `.ok v` = the
promise eventually resolves with `v`). -/
structure ProbeEnv where
  webglBody : Except String JSValue
  audioBody : Except String JSValue
  canvasBody : Except String JSValue
  webrtcSetup : Except String (Option JSValue)
  webrtcExecutor : Except String JSValue
  hardwareConcurrencyBody : Except String JSValue
  deviceMemoryBody : Except String JSValue
  batteryBody : Except String JSValue
  timezoneBody : Except String JSValue
  languagesBody : Except String JSValue
  navigatorPlugins : Except String (List PluginInfo)
  mimeTypesBody : Except String JSValue
  touchSupportBody : Except String JSValue
  maxTouchPointsBody : Except String JSValue
  screenBody : Except String JSValue
  navigatorBody : Except String JSValue
  performanceBody : Except String JSValue
  webglRendererBody : Except String JSValue
  webglVendorBody : Except String JSValue
  canvasTextMetricsBody : Except String JSValue
  mathConstantsBody : Except String JSValue
  errorStackBody : Except String JSValue
  domRectBody : Except String JSValue
  speechSetup : Except String (Option JSValue)
  speechExecutor : Except String JSValue
  mediaDevicesBody : Except String JSValue
  gamepadBody : Except String JSValue
  vibrationBody : Except String JSValue
  networkBody : Except String JSValue
  storageQuotaBody : Except String JSValue
  indexedDBBody : Except String JSValue
  webAssemblyBody : Except String JSValue

/-- The `try { ...body... } catch (e) { return null; }` wrapper that fully
guards fourteen of the probes: a thrown body becomes the `null` sentinel. -/
def tryCatchNull : Except String JSValue → JSValue
  | .ok v => v
  | .error _ => .vnull

namespace AdvancedBrowserFingerprint

/-- Lines 88-138: body in `try`/`catch` returning `null` on a throw. -/
def detectWebGLFingerprint (env : ProbeEnv) : Except String JSValue :=
  .ok (tryCatchNull env.webglBody)

/-- Lines 143-200: body in `try`/`catch`. -/
def detectAudioContext (env : ProbeEnv) : Except String JSValue :=
  .ok (tryCatchNull env.audioBody)

/-- Lines 205-245: body in `try`/`catch`. -/
def detectCanvasFingerprint (env : ProbeEnv) : Except String JSValue :=
  .ok (tryCatchNull env.canvasBody)

/-- Lines 250-282: the synchronous prefix (the `RTCPeerConnection` feature
lookup and the early `return null`) runs inside the `try`, but the probe
then does `return new Promise(executor)` without `await`: the `try` exits
as soon as the promise object is produced.  A throw in the prefix is caught
and becomes `null`; a synchronous throw inside the executor (lines 261-265,
e.g. the `RTCPeerConnection` constructor or `createDataChannel`) rejects
the returned promise after the `try` has exited, bypassing the `catch` and
rejecting the probe. -/
def detectWebRTCFingerprint (env : ProbeEnv) : Except String JSValue :=
  match env.webrtcSetup with
  | .error _ => .ok .vnull
  | .ok (some v) => .ok v
  | .ok none => env.webrtcExecutor

/-- Lines 287-289: `return navigator.hardwareConcurrency || null;` with no
`try`/`catch`: a throw in the body propagates. -/
def detectHardwareConcurrency (env : ProbeEnv) : Except String JSValue :=
  env.hardwareConcurrencyBody

/-- Lines 300-302: no `try`/`catch`. -/
def detectDeviceMemory (env : ProbeEnv) : Except String JSValue :=
  env.deviceMemoryBody

/-- Lines 307-320: body in `try`/`catch`. -/
def detectBatteryAPI (env : ProbeEnv) : Except String JSValue :=
  .ok (tryCatchNull env.batteryBody)

/-- Lines 325-332: no `try`/`catch`. -/
def detectTimezoneOffset (env : ProbeEnv) : Except String JSValue :=
  env.timezoneBody

/-- Lines 337-342: no `try`/`catch`. -/
def detectLanguages (env : ProbeEnv) : Except String JSValue :=
  env.languagesBody

/-- Lines 347-358: the loop over `navigator.plugins` with no `try`/`catch`:
if reading the host collection throws, the rejection propagates; otherwise
the plugin records are assembled into an array. -/
def detectPlugins (env : ProbeEnv) : Except String JSValue := do
  let ps ← env.navigatorPlugins
  pure (.vlist (ps.map (fun p => .vobj
    [("name", .vstr p.name),
     ("description", .vstr p.description),
     ("filename", .vstr p.filename)])))

/-- Lines 363-374: the analogous loop over `navigator.mimeTypes`, no
`try`/`catch` (modelled at the body boundary). -/
def detectMimeTypes (env : ProbeEnv) : Except String JSValue :=
  env.mimeTypesBody

/-- Lines 379-385: no `try`/`catch`. -/
def detectTouchSupport (env : ProbeEnv) : Except String JSValue :=
  env.touchSupportBody

/-- Lines 390-392: no `try`/`catch`. -/
def detectMaxTouchPoints (env : ProbeEnv) : Except String JSValue :=
  env.maxTouchPointsBody

/-- Lines 397-409: no `try`/`catch`. -/
def detectScreenDetails (env : ProbeEnv) : Except String JSValue :=
  env.screenBody

/-- Lines 414-429: no `try`/`catch`. -/
def detectNavigatorProperties (env : ProbeEnv) : Except String JSValue :=
  env.navigatorBody

/-- Lines 434-448: no `try`/`catch`. -/
def detectPerformanceMetrics (env : ProbeEnv) : Except String JSValue :=
  env.performanceBody

/-- Lines 453-464: body in `try`/`catch`. -/
def detectWebGLRenderer (env : ProbeEnv) : Except String JSValue :=
  .ok (tryCatchNull env.webglRendererBody)

/-- Lines 469-480: body in `try`/`catch`. -/
def detectWebGLVendor (env : ProbeEnv) : Except String JSValue :=
  .ok (tryCatchNull env.webglVendorBody)

/-- Lines 485-508: body in `try`/`catch`. -/
def detectCanvasTextMetrics (env : ProbeEnv) : Except String JSValue :=
  .ok (tryCatchNull env.canvasTextMetricsBody)

/-- Lines 513-526: no `try`/`catch`. -/
def detectMathConstants (env : ProbeEnv) : Except String JSValue :=
  env.mathConstantsBody

/-- Lines 531-541: the `try` only guards the deliberate `throw`; the result
is computed in the `catch` block outside any further guard. -/
def detectErrorStackTrace (env : ProbeEnv) : Except String JSValue :=
  env.errorStackBody

/-- Lines 546-560: body in `try`/`catch`. -/
def detectDOMRectPrecision (env : ProbeEnv) : Except String JSValue :=
  .ok (tryCatchNull env.domRectBody)

/-- Lines 565-583: like webrtc, the `window.speechSynthesis` check is
guarded by the `try`, but the probe returns a `new Promise(executor)`
without `await`: a throw from `speechSynthesis.getVoices()` inside the
executor (line 572) rejects the returned promise past the `catch` and
rejects the probe. -/
def detectSpeechSynthesis (env : ProbeEnv) : Except String JSValue :=
  match env.speechSetup with
  | .error _ => .ok .vnull
  | .ok (some v) => .ok v
  | .ok none => env.speechExecutor

/-- Lines 588-602: body (including the awaited enumeration) in
`try`/`catch`. -/
def detectMediaDevices (env : ProbeEnv) : Except String JSValue :=
  .ok (tryCatchNull env.mediaDevicesBody)

/-- Lines 607-616: body in `try`/`catch`. -/
def detectGamepadAPI (env : ProbeEnv) : Except String JSValue :=
  .ok (tryCatchNull env.gamepadBody)

/-- Lines 621-623: no `try`/`catch`. -/
def detectVibrationAPI (env : ProbeEnv) : Except String JSValue :=
  env.vibrationBody

/-- Lines 628-641: body in `try`/`catch`. -/
def detectNetworkInformation (env : ProbeEnv) : Except String JSValue :=
  .ok (tryCatchNull env.networkBody)

/-- Lines 646-658: body (including the awaited estimate) in `try`/`catch`. -/
def detectStorageQuota (env : ProbeEnv) : Except String JSValue :=
  .ok (tryCatchNull env.storageQuotaBody)

/-- Lines 663-673: body in `try`/`catch`. -/
def detectIndexedDBQuirks (env : ProbeEnv) : Except String JSValue :=
  .ok (tryCatchNull env.indexedDBBody)

/-- Lines 678-689: body in `try`/`catch`. -/
def detectWebAssemblySupport (env : ProbeEnv) : Except String JSValue :=
  .ok (tryCatchNull env.webAssemblyBody)

/-- `generate()`: `Promise.all` over the thirty probes — a rejection of any
probe rejects the whole call — followed by assembly of the fingerprint
record with its fixed key list. -/
def generate (env : ProbeEnv) : Except String (List (String × JSValue)) := do
  let r0 ← detectWebGLFingerprint env
  let r1 ← detectAudioContext env
  let r2 ← detectCanvasFingerprint env
  let r3 ← detectWebRTCFingerprint env
  let r4 ← detectHardwareConcurrency env
  let r5 ← detectDeviceMemory env
  let r6 ← detectBatteryAPI env
  let r7 ← detectTimezoneOffset env
  let r8 ← detectLanguages env
  let r9 ← detectPlugins env
  let r10 ← detectMimeTypes env
  let r11 ← detectTouchSupport env
  let r12 ← detectMaxTouchPoints env
  let r13 ← detectScreenDetails env
  let r14 ← detectNavigatorProperties env
  let r15 ← detectPerformanceMetrics env
  let r16 ← detectWebGLRenderer env
  let r17 ← detectWebGLVendor env
  let r18 ← detectCanvasTextMetrics env
  let r19 ← detectMathConstants env
  let r20 ← detectErrorStackTrace env
  let r21 ← detectDOMRectPrecision env
  let r22 ← detectSpeechSynthesis env
  let r23 ← detectMediaDevices env
  let r24 ← detectGamepadAPI env
  let r25 ← detectVibrationAPI env
  let r26 ← detectNetworkInformation env
  let r27 ← detectStorageQuota env
  let r28 ← detectIndexedDBQuirks env
  let r29 ← detectWebAssemblySupport env
  pure [
    ("webgl", r0), ("audio", r1), ("canvas", r2), ("webrtc", r3),
    ("hardwareConcurrency", r4), ("deviceMemory", r5), ("battery", r6),
    ("timezone", r7), ("languages", r8), ("plugins", r9),
    ("mimeTypes", r10), ("touchSupport", r11), ("maxTouchPoints", r12),
    ("screen", r13), ("navigator", r14), ("performance", r15),
    ("webglRenderer", r16), ("webglVendor", r17), ("canvasTextMetrics", r18),
    ("mathConstants", r19), ("errorStack", r20), ("domRect", r21),
    ("speechSynthesis", r22), ("mediaDevices", r23), ("gamepad", r24),
    ("vibration", r25), ("network", r26), ("storageQuota", r27),
    ("indexedDB", r28), ("webAssembly", r29)]

end AdvancedBrowserFingerprint

/-- The fixed key list of the fingerprint record assembled by `generate`
(lines 49-80), in declaration order. -/
def fingerprintKeys : List String :=
  ["webgl", "audio", "canvas", "webrtc", "hardwareConcurrency",
   "deviceMemory", "battery", "timezone", "languages", "plugins",
   "mimeTypes", "touchSupport", "maxTouchPoints", "screen", "navigator",
   "performance", "webglRenderer", "webglVendor", "canvasTextMetrics",
   "mathConstants", "errorStack", "domRect", "speechSynthesis",
   "mediaDevices", "gamepad", "vibration", "network", "storageQuota",
   "indexedDB", "webAssembly"]

/-- A probe environment in which every probe body completes, returning the
`null` sentinel (a host with no capabilities at all). -/
def allNullEnv : ProbeEnv where
  webglBody := .ok .vnull
  audioBody := .ok .vnull
  canvasBody := .ok .vnull
  webrtcSetup := .ok (some .vnull)
  webrtcExecutor := .ok .vnull
  hardwareConcurrencyBody := .ok .vnull
  deviceMemoryBody := .ok .vnull
  batteryBody := .ok .vnull
  timezoneBody := .ok .vnull
  languagesBody := .ok .vnull
  navigatorPlugins := .ok []
  mimeTypesBody := .ok .vnull
  touchSupportBody := .ok .vnull
  maxTouchPointsBody := .ok .vnull
  screenBody := .ok .vnull
  navigatorBody := .ok .vnull
  performanceBody := .ok .vnull
  webglRendererBody := .ok .vnull
  webglVendorBody := .ok .vnull
  canvasTextMetricsBody := .ok .vnull
  mathConstantsBody := .ok .vnull
  errorStackBody := .ok .vnull
  domRectBody := .ok .vnull
  speechSetup := .ok (some .vnull)
  speechExecutor := .ok .vnull
  mediaDevicesBody := .ok .vnull
  gamepadBody := .ok .vnull
  vibrationBody := .ok .vnull
  networkBody := .ok .vnull
  storageQuotaBody := .ok .vnull
  indexedDBBody := .ok .vnull
  webAssemblyBody := .ok .vnull

/-- `allNullEnv` except that reading `navigator.plugins` throws (as it does
on a host without a `navigator` object): the body of `detectPlugins`
throws, and no `try`/`catch` guards it. -/
def pluginsThrowEnv : ProbeEnv :=
  { allNullEnv with
    navigatorPlugins := .error "TypeError: navigator.plugins is undefined" }

/-- `allNullEnv` except that every guarded region throws: the fourteen
fully wrapped probe bodies, and the synchronous prefixes of the webrtc and
speechSynthesis probes.  Each of those throws is caught at its probe
boundary. -/
def wrappedThrowEnv : ProbeEnv :=
  { allNullEnv with
    webglBody := .error "boom"
    audioBody := .error "boom"
    canvasBody := .error "boom"
    webrtcSetup := .error "boom"
    batteryBody := .error "boom"
    webglRendererBody := .error "boom"
    webglVendorBody := .error "boom"
    canvasTextMetricsBody := .error "boom"
    domRectBody := .error "boom"
    speechSetup := .error "boom"
    mediaDevicesBody := .error "boom"
    gamepadBody := .error "boom"
    networkBody := .error "boom"
    storageQuotaBody := .error "boom"
    indexedDBBody := .error "boom"
    webAssemblyBody := .error "boom" }

/-- `allNullEnv` except that the webrtc probe reaches its
`return new Promise(executor)` and the executor throws synchronously (as a
patched `RTCPeerConnection` constructor does): the rejection bypasses the
`catch`. -/
def webrtcExecutorThrowEnv : ProbeEnv :=
  { allNullEnv with
    webrtcSetup := .ok none
    webrtcExecutor := .error "NotSupportedError: RTCPeerConnection" }

/-- `allNullEnv` except that `speechSynthesis.getVoices()` throws inside
the promise executor of the speechSynthesis probe. -/
def speechExecutorThrowEnv : ProbeEnv :=
  { allNullEnv with
    speechSetup := .ok none
    speechExecutor := .error "TypeError: getVoices" }

/-- Decidable equality of `Except` results, used to evaluate the embedded
functions on concrete inputs. -/
instance {ε α : Type} [DecidableEq ε] [DecidableEq α] : DecidableEq (Except ε α) := fun a b =>
  match a, b with
  | .ok x, .ok y =>
      if h : x = y then .isTrue (by rw [h])
      else .isFalse (fun he => h (by injection he))
  | .error x, .error y =>
      if h : x = y then .isTrue (by rw [h])
      else .isFalse (fun he => h (by injection he))
  | .ok _, .error _ => .isFalse (fun he => Except.noConfusion he)
  | .error _, .ok _ => .isFalse (fun he => Except.noConfusion he)


/-! ## Concrete states and auxiliary definitions used by the theorems -/

/-- The four volatile field families that `getHash` excludes by design
(lines 769-773). -/
def volatileKeys : List String :=
  ["battery", "network", "performance", "storageQuota"]

/-- A fingerprint state whose `languages.languages` list is the given list
of language tags (all other probe fields absent). -/
def langState (langs : List String) : JSValue :=
  .vobj [("languages", .vobj [("languages", .vlist (langs.map JSValue.vstr))])]

/-- A fingerprint state whose `webgl.extensions` list is the given list of
extension names (all other probe fields absent). -/
def extState (ext : List String) : JSValue :=
  .vobj [("webgl", .vobj [("extensions", .vlist (ext.map JSValue.vstr))])]

/-- The stable-feature list produced by `getHash` on `extState l`: every
element is a constant except the joined, sorted extension list. -/
def extFeatureList (l : List String) : List JSValue :=
  [.vstr "webgl:undefined", .vstr "webgl_vendor:undefined", .vstr "", .vstr "",
   .vstr (joinElems "," (List.insertionSort jsSortLE (l.map JSValue.vstr))),
   .vstr "audio:", .vstr "audio_sr:", .vstr "audio_ch:", .vstr "canvas:",
   .vstr "hw_cores:", .vstr "hw_mem:", .vstr "screen:undefinedxundefined",
   .vstr "screen_depth:undefined", .vstr "screen_dpr:undefined", .vstr "tz:",
   .vstr "tz_offset:", .vstr "lang:", .vstr "math_tan:", .vstr "math_sin:",
   .vstr "math_acos:", .vstr "\x7b\x7d", .vstr "platform:", .vstr "vendor:",
   .vstr "touch:0", .vstr "speech:0", .vstr "plugins:0", .vstr "error:",
   .vstr "rect:x"]

/-- The record `generate` assembles under `allNullEnv`: every probe family
maps to the `null` sentinel, except `plugins`, whose loop over the empty
host collection yields an empty array. -/
def allNullRecord : List (String × JSValue) :=
  [("webgl", .vnull), ("audio", .vnull), ("canvas", .vnull),
   ("webrtc", .vnull), ("hardwareConcurrency", .vnull),
   ("deviceMemory", .vnull), ("battery", .vnull), ("timezone", .vnull),
   ("languages", .vnull), ("plugins", .vlist []), ("mimeTypes", .vnull),
   ("touchSupport", .vnull), ("maxTouchPoints", .vnull), ("screen", .vnull),
   ("navigator", .vnull), ("performance", .vnull), ("webglRenderer", .vnull),
   ("webglVendor", .vnull), ("canvasTextMetrics", .vnull),
   ("mathConstants", .vnull), ("errorStack", .vnull), ("domRect", .vnull),
   ("speechSynthesis", .vnull), ("mediaDevices", .vnull),
   ("gamepad", .vnull), ("vibration", .vnull), ("network", .vnull),
   ("storageQuota", .vnull), ("indexedDB", .vnull), ("webAssembly", .vnull)]

/-- `Except.map` specialised to extracting the per-element strings of a
stable-feature list, for staged concrete evaluation. -/
def mapStrings (r : Except String (List JSValue)) : Except String (List String) :=
  match r with
  | .ok fs => .ok (fs.map jsElemString)
  | .error e => .error e


/-- The hash loop continued from an arbitrary accumulator, used to evaluate
the fold over a long canonical string in slices. -/
def hashFoldFrom (a : Nat) (s : String) : Nat := (charCodes s).foldl hashStep a

/-! ## Lemmas -/

lemma toInt32_emod (x : Int) : toInt32 x % 4294967296 = x % 4294967296 := by
  unfold toInt32 ; split <;> omega

lemma toInt32_mul32_emod (x : Int) :
    toInt32 (toInt32 x * 32) % 4294967296 = x * 32 % 4294967296 := by
  rw [toInt32_emod, Int.mul_emod, toInt32_emod, ← Int.mul_emod]

lemma hashStep_eq_djb2Step (h c : Nat) : hashStep h c = djb2Step h c := by
  unfold hashStep djb2Step toUint32
  generalize hT : toInt32 (toInt32 ((h : Int)) * 32) = T
  have h2 : T % 4294967296 = (h : Int) * 32 % 4294967296 := by
    rw [← hT] ; exact toInt32_mul32_emod _
  rw [Int.add_emod, Int.add_emod T, h2]
  omega

lemma foldl_hashStep_eq (codes : List Nat) :
    ∀ a, codes.foldl hashStep a = codes.foldl djb2Step a := by
  induction codes with
  | nil => intro a ; simp only [List.foldl_nil]
  | cons c cs ih =>
      intro a
      simp only [List.foldl_cons, hashStep_eq_djb2Step]
      exact ih _

lemma jsHashFold_eq_djb2Fold (codes : List Nat) :
    jsHashFold codes = djb2Fold codes :=
  foldl_hashStep_eq codes 5381

lemma hashStep_lt (h c : Nat) : hashStep h c < 4294967296 := by
  unfold hashStep toUint32 ; omega

lemma foldl_hashStep_lt (codes : List Nat) :
    ∀ a, a < 4294967296 → codes.foldl hashStep a < 4294967296 := by
  induction codes with
  | nil => intro a ha ; simpa using ha
  | cons c cs ih =>
      intro a _
      simp only [List.foldl_cons]
      exact ih _ (hashStep_lt _ _)

lemma jsHashFold_lt (codes : List Nat) : jsHashFold codes < 4294967296 := by
  unfold jsHashFold
  exact foldl_hashStep_lt codes 5381 (by omega)

lemma hexDigitsFuel_length_pos :
    ∀ fuel n : Nat, n < fuel → 1 ≤ (hexDigitsFuel fuel n).length := by
  intro fuel
  induction fuel with
  | zero => intro n h ; omega
  | succ fuel _ =>
      intro n _
      simp only [hexDigitsFuel]
      split
      · simp
      · simp

lemma hexDigits_length_pos (n : Nat) : 1 ≤ (hexDigits n).length :=
  hexDigitsFuel_length_pos (n + 1) n (by omega)

lemma hexDigitsFuel_length_le :
    ∀ fuel k n : Nat, n < fuel → 0 < k → n < 16 ^ k →
    (hexDigitsFuel fuel n).length ≤ k := by
  intro fuel
  induction fuel with
  | zero => intro k n h ; omega
  | succ fuel ih =>
      intro k n hn hk hnk
      simp only [hexDigitsFuel]
      split
      · simp ; omega
      · rename_i hge
        push_neg at hge
        have hk1 : 0 < k - 1 := by
          by_contra hk0
          have : k = 1 := by omega
          subst this
          simp at hnk
          omega
        have hdiv : n / 16 < 16 ^ (k - 1) := by
          rw [Nat.div_lt_iff_lt_mul (by omega)]
          calc n < 16 ^ k := hnk
          _ = 16 ^ (k - 1) * 16 := by
            rw [← pow_succ]
            congr 1
            omega
        have hfuel : n / 16 < fuel := by
          have := Nat.div_lt_self (show 0 < n by omega) (show 1 < 16 by omega)
          omega
        have := ih (k - 1) (n / 16) hfuel hk1 hdiv
        simp only [List.length_append, List.length_cons, List.length_nil]
        omega

lemma hexDigits_length_le (k n : Nat) (hk : 0 < k) (hn : n < 16 ^ k) :
    (hexDigits n).length ≤ k :=
  hexDigitsFuel_length_le (n + 1) k n (by omega) hk hn

lemma digitChar_mem_hexChars (n : Nat) (h : n < 16) : Nat.digitChar n ∈ hexChars := by
  interval_cases n <;> decide

lemma hexDigitsFuel_mem_hexChars :
    ∀ fuel n : Nat, n < fuel → ∀ c ∈ hexDigitsFuel fuel n, c ∈ hexChars := by
  intro fuel
  induction fuel with
  | zero => intro n h ; omega
  | succ fuel ih =>
      intro n hn c hc
      simp only [hexDigitsFuel] at hc
      split at hc
      · rename_i hlt
        simp only [List.mem_singleton] at hc
        subst hc
        exact digitChar_mem_hexChars n hlt
      · rename_i hge
        push_neg at hge
        simp only [List.mem_append, List.mem_singleton] at hc
        have hfuel : n / 16 < fuel := by
          have := Nat.div_lt_self (show 0 < n by omega) (show 1 < 16 by omega)
          omega
        rcases hc with hc | hc
        · exact ih (n / 16) hfuel c hc
        · subst hc
          exact digitChar_mem_hexChars (n % 16) (Nat.mod_lt _ (by omega))

lemma hexDigits_mem_hexChars (n : Nat) :
    ∀ c ∈ hexDigits n, c ∈ hexChars :=
  hexDigitsFuel_mem_hexChars (n + 1) n (by omega)

lemma abf_getHash_congr {s1 s2 : JSValue}
    (h : AdvancedBrowserFingerprint.stableFeatures s1
       = AdvancedBrowserFingerprint.stableFeatures s2) :
    AdvancedBrowserFingerprint.getHash s1 = AdvancedBrowserFingerprint.getHash s2 := by
  unfold AdvancedBrowserFingerprint.getHash
  rw [h]

lemma exceptOkBind {α β : Type} (a : α) (f : α → Except String β) :
    (Except.ok a >>= f) = f a := rfl

lemma exceptBindOk {α β : Type} {x : Except String α} {f : α → Except String β}
    {r : β} (h : (x >>= f) = .ok r) : ∃ a, x = .ok a ∧ f a = .ok r := by
  cases x with
  | ok a => exact ⟨a, rfl, h⟩
  | error e =>
      simp only [Bind.bind, Except.bind] at h
      exact Except.noConfusion h

lemma getHash_eval_aux {F : JSValue → Except String (List JSValue)} {s : JSValue}
    {L : List String} {S H : String}
    (h1 : mapStrings (F s) = .ok L)
    (h2 : String.intercalate "|" L = S)
    (h3 : hashString S = H) :
    (do let fs ← F s ; pure (hashString (joinElems "|" fs)) :
        Except String String) = .ok H := by
  cases hfs : F s with
  | error e =>
      rw [hfs] at h1
      simp only [mapStrings] at h1
      exact Except.noConfusion h1
  | ok fs =>
      rw [hfs] at h1
      simp only [mapStrings] at h1
      injection h1 with h1
      show Except.ok (hashString (joinElems "|" fs)) = .ok H
      rw [joinElems, h1, h2, h3]

lemma abf_getHash_eval {s : JSValue} {L : List String} {S H : String}
    (h1 : mapStrings (AdvancedBrowserFingerprint.stableFeatures s) = .ok L)
    (h2 : String.intercalate "|" L = S)
    (h3 : hashString S = H) :
    AdvancedBrowserFingerprint.getHash s = .ok H := by
  unfold AdvancedBrowserFingerprint.getHash
  exact getHash_eval_aux h1 h2 h3

lemma css_getHash_eval {s : JSValue} {L : List String} {S H : String}
    (h1 : mapStrings (CSSFingerprint.stableFeatures s) = .ok L)
    (h2 : String.intercalate "|" L = S)
    (h3 : hashString S = H) :
    CSSFingerprint.getHash s = .ok H := by
  unfold CSSFingerprint.getHash
  exact getHash_eval_aux h1 h2 h3

lemma adv_getHash_eval {s : JSValue} {L : List String} {S H : String}
    (h1 : mapStrings (AdvancedCSSFingerprint.stableFeatures s) = .ok L)
    (h2 : String.intercalate "|" L = S)
    (h3 : hashString S = H) :
    AdvancedCSSFingerprint.getHash s = .ok H := by
  unfold AdvancedCSSFingerprint.getHash
  exact getHash_eval_aux h1 h2 h3

lemma getCombinedHash_eval {b a : JSValue} {hb ha hc : String}
    (h1 : CSSFingerprint.getHash b = .ok hb)
    (h2 : AdvancedCSSFingerprint.getHash a = .ok ha)
    (h3 : hashString (hb ++ "|" ++ ha) = hc) :
    CombinedCSSFingerprint.getCombinedHash b a = .ok hc := by
  unfold CombinedCSSFingerprint.getCombinedHash
  simp only [h1, h2, exceptOkBind]
  show Except.ok (hashString (hb ++ "|" ++ ha)) = .ok hc
  rw [h3]

lemma orderedInsert_map_vstr (a : String) (l : List String) :
    List.orderedInsert jsSortLE (JSValue.vstr a) (l.map JSValue.vstr)
      = (List.orderedInsert (· ≤ ·) a l).map JSValue.vstr := by
  induction l with
  | nil => rfl
  | cons b l ih =>
      simp only [List.map_cons, List.orderedInsert]
      split
      · rename_i hab
        rw [if_pos (show a ≤ b from hab)]
        simp [List.map_cons]
      · rename_i hab
        rw [if_neg (show ¬ a ≤ b from fun hh => hab hh)]
        simp [List.map_cons, ih]

lemma insertionSort_map_vstr (l : List String) :
    List.insertionSort jsSortLE (l.map JSValue.vstr)
      = (List.insertionSort (· ≤ ·) l).map JSValue.vstr := by
  induction l with
  | nil => rfl
  | cons a l ih =>
      simp only [List.map_cons, List.insertionSort, ih, orderedInsert_map_vstr]

lemma insertionSort_perm_eq {l1 l2 : List String} (hp : l1.Perm l2) :
    List.insertionSort (· ≤ ·) l1 = List.insertionSort (· ≤ ·) l2 := by
  have hperm : (List.insertionSort (· ≤ ·) l1).Perm (List.insertionSort (· ≤ ·) l2) :=
    (List.perm_insertionSort _ _).trans
      (hp.trans (List.perm_insertionSort _ _).symm)
  have hs1 : List.Sorted (· ≤ ·) (List.insertionSort (· ≤ ·) l1) :=
    List.sorted_insertionSort _ _
  have hs2 : List.Sorted (· ≤ ·) (List.insertionSort (· ≤ ·) l2) :=
    List.sorted_insertionSort _ _
  exact List.eq_of_perm_of_sorted hperm hs1 hs2

lemma hashFoldFrom_append (a : Nat) (s t : String) :
    hashFoldFrom a (s ++ t) = hashFoldFrom (hashFoldFrom a s) t := by
  unfold hashFoldFrom charCodes
  rw [String.data_append, List.map_append, List.foldl_append]

lemma hashString_eq_hex_foldFrom (s : String) :
    hashString s = jsHashHex (hashFoldFrom 5381 s) := rfl

set_option maxRecDepth 4000 in
lemma abfEmpty_stage1 :
    mapStrings (AdvancedBrowserFingerprint.stableFeatures (JSValue.vobj []))
      = .ok ["webgl:undefined", "webgl_vendor:undefined", "", "", "", "audio:", "audio_sr:", "audio_ch:", "canvas:", "hw_cores:", "hw_mem:", "screen:undefinedxundefined", "screen_depth:undefined", "screen_dpr:undefined", "tz:", "tz_offset:", "lang:", "math_tan:", "math_sin:", "math_acos:", "\x7b\x7d", "platform:", "vendor:", "touch:0", "speech:0", "plugins:0", "error:", "rect:x"] := by decide

set_option maxRecDepth 4000 in
lemma abfEmpty_stage2 :
    String.intercalate "|" ["webgl:undefined", "webgl_vendor:undefined", "", "", "", "audio:", "audio_sr:", "audio_ch:", "canvas:", "hw_cores:", "hw_mem:", "screen:undefinedxundefined", "screen_depth:undefined", "screen_dpr:undefined", "tz:", "tz_offset:", "lang:", "math_tan:", "math_sin:", "math_acos:", "\x7b\x7d", "platform:", "vendor:", "touch:0", "speech:0", "plugins:0", "error:", "rect:x"]
      = "webgl:undefined|webgl_ve" ++ ("ndor:undefined||||audio:" ++ ("|audio_sr:|audio_ch:|can" ++ ("vas:|hw_cores:|hw_mem:|s" ++ ("creen:undefinedxundefine" ++ ("d|screen_depth:undefined" ++ ("|screen_dpr:undefined|tz" ++ (":|tz_offset:|lang:|math_" ++ ("tan:|math_sin:|math_acos" ++ (":|\x7b\x7d|platform:|vendor:|t" ++ ("ouch:0|speech:0|plugins:" ++ "0|error:|rect:x")))))))))) := by decide

set_option maxRecDepth 4000 in
lemma abfEmpty_stage3 : hashString ("webgl:undefined|webgl_ve" ++ ("ndor:undefined||||audio:" ++ ("|audio_sr:|audio_ch:|can" ++ ("vas:|hw_cores:|hw_mem:|s" ++ ("creen:undefinedxundefine" ++ ("d|screen_depth:undefined" ++ ("|screen_dpr:undefined|tz" ++ (":|tz_offset:|lang:|math_" ++ ("tan:|math_sin:|math_acos" ++ (":|\x7b\x7d|platform:|vendor:|t" ++ ("ouch:0|speech:0|plugins:" ++ "0|error:|rect:x"))))))))))) = "c2429606" := by
  have f0 : hashFoldFrom 5381 "webgl:undefined|webgl_ve" = 1113955625 := by decide
  have f1 : hashFoldFrom 1113955625 "ndor:undefined||||audio:" = 3730239876 := by decide
  have f2 : hashFoldFrom 3730239876 "|audio_sr:|audio_ch:|can" = 2230680208 := by decide
  have f3 : hashFoldFrom 2230680208 "vas:|hw_cores:|hw_mem:|s" = 2030519334 := by decide
  have f4 : hashFoldFrom 2030519334 "creen:undefinedxundefine" = 73089445 := by decide
  have f5 : hashFoldFrom 73089445 "d|screen_depth:undefined" = 1954270917 := by decide
  have f6 : hashFoldFrom 1954270917 "|screen_dpr:undefined|tz" = 2479780380 := by decide
  have f7 : hashFoldFrom 2479780380 ":|tz_offset:|lang:|math_" = 971785629 := by decide
  have f8 : hashFoldFrom 971785629 "tan:|math_sin:|math_acos" = 4023815022 := by decide
  have f9 : hashFoldFrom 4023815022 ":|\x7b\x7d|platform:|vendor:|t" = 3899581803 := by decide
  have f10 : hashFoldFrom 3899581803 "ouch:0|speech:0|plugins:" = 2153574746 := by decide
  have f11 : hashFoldFrom 2153574746 "0|error:|rect:x" = 3259143686 := by decide
  have hx : jsHashHex 3259143686 = "c2429606" := by decide
  rw [hashString_eq_hex_foldFrom, hashFoldFrom_append, f0, hashFoldFrom_append, f1, hashFoldFrom_append, f2, hashFoldFrom_append, f3, hashFoldFrom_append, f4, hashFoldFrom_append, f5, hashFoldFrom_append, f6, hashFoldFrom_append, f7, hashFoldFrom_append, f8, hashFoldFrom_append, f9, hashFoldFrom_append, f10, f11, hx]

lemma abfEmpty_hash : AdvancedBrowserFingerprint.getHash (JSValue.vobj []) = .ok "c2429606" :=
  abf_getHash_eval abfEmpty_stage1 abfEmpty_stage2 abfEmpty_stage3


set_option maxRecDepth 4000 in
lemma abfLangA_stage1 :
    mapStrings (AdvancedBrowserFingerprint.stableFeatures (langState ["en-US", "tr-TR"]))
      = .ok ["webgl:undefined", "webgl_vendor:undefined", "", "", "", "audio:", "audio_sr:", "audio_ch:", "canvas:", "hw_cores:", "hw_mem:", "screen:undefinedxundefined", "screen_depth:undefined", "screen_dpr:undefined", "tz:", "tz_offset:", "lang:en-US,tr-TR", "math_tan:", "math_sin:", "math_acos:", "\x7b\x7d", "platform:", "vendor:", "touch:0", "speech:0", "plugins:0", "error:", "rect:x"] := by decide

set_option maxRecDepth 4000 in
lemma abfLangA_stage2 :
    String.intercalate "|" ["webgl:undefined", "webgl_vendor:undefined", "", "", "", "audio:", "audio_sr:", "audio_ch:", "canvas:", "hw_cores:", "hw_mem:", "screen:undefinedxundefined", "screen_depth:undefined", "screen_dpr:undefined", "tz:", "tz_offset:", "lang:en-US,tr-TR", "math_tan:", "math_sin:", "math_acos:", "\x7b\x7d", "platform:", "vendor:", "touch:0", "speech:0", "plugins:0", "error:", "rect:x"]
      = "webgl:undefined|webgl_ve" ++ ("ndor:undefined||||audio:" ++ ("|audio_sr:|audio_ch:|can" ++ ("vas:|hw_cores:|hw_mem:|s" ++ ("creen:undefinedxundefine" ++ ("d|screen_depth:undefined" ++ ("|screen_dpr:undefined|tz" ++ (":|tz_offset:|lang:en-US," ++ ("tr-TR|math_tan:|math_sin" ++ (":|math_acos:|\x7b\x7d|platform" ++ (":|vendor:|touch:0|speech" ++ (":0|plugins:0|error:|rect" ++ ":x"))))))))))) := by decide

set_option maxRecDepth 4000 in
lemma abfLangA_stage3 : hashString ("webgl:undefined|webgl_ve" ++ ("ndor:undefined||||audio:" ++ ("|audio_sr:|audio_ch:|can" ++ ("vas:|hw_cores:|hw_mem:|s" ++ ("creen:undefinedxundefine" ++ ("d|screen_depth:undefined" ++ ("|screen_dpr:undefined|tz" ++ (":|tz_offset:|lang:en-US," ++ ("tr-TR|math_tan:|math_sin" ++ (":|math_acos:|\x7b\x7d|platform" ++ (":|vendor:|touch:0|speech" ++ (":0|plugins:0|error:|rect" ++ ":x")))))))))))) = "f634b753" := by
  have f0 : hashFoldFrom 5381 "webgl:undefined|webgl_ve" = 1113955625 := by decide
  have f1 : hashFoldFrom 1113955625 "ndor:undefined||||audio:" = 3730239876 := by decide
  have f2 : hashFoldFrom 3730239876 "|audio_sr:|audio_ch:|can" = 2230680208 := by decide
  have f3 : hashFoldFrom 2230680208 "vas:|hw_cores:|hw_mem:|s" = 2030519334 := by decide
  have f4 : hashFoldFrom 2030519334 "creen:undefinedxundefine" = 73089445 := by decide
  have f5 : hashFoldFrom 73089445 "d|screen_depth:undefined" = 1954270917 := by decide
  have f6 : hashFoldFrom 1954270917 "|screen_dpr:undefined|tz" = 2479780380 := by decide
  have f7 : hashFoldFrom 2479780380 ":|tz_offset:|lang:en-US," = 70954284 := by decide
  have f8 : hashFoldFrom 70954284 "tr-TR|math_tan:|math_sin" = 1841153878 := by decide
  have f9 : hashFoldFrom 1841153878 ":|math_acos:|\x7b\x7d|platform" = 950490506 := by decide
  have f10 : hashFoldFrom 950490506 ":|vendor:|touch:0|speech" = 401944549 := by decide
  have f11 : hashFoldFrom 401944549 ":0|plugins:0|error:|rect" = 2228183841 := by decide
  have f12 : hashFoldFrom 2228183841 ":x" = 4130649939 := by decide
  have hx : jsHashHex 4130649939 = "f634b753" := by decide
  rw [hashString_eq_hex_foldFrom, hashFoldFrom_append, f0, hashFoldFrom_append, f1, hashFoldFrom_append, f2, hashFoldFrom_append, f3, hashFoldFrom_append, f4, hashFoldFrom_append, f5, hashFoldFrom_append, f6, hashFoldFrom_append, f7, hashFoldFrom_append, f8, hashFoldFrom_append, f9, hashFoldFrom_append, f10, hashFoldFrom_append, f11, f12, hx]

lemma abfLangA_hash : AdvancedBrowserFingerprint.getHash (langState ["en-US", "tr-TR"]) = .ok "f634b753" :=
  abf_getHash_eval abfLangA_stage1 abfLangA_stage2 abfLangA_stage3


set_option maxRecDepth 4000 in
lemma abfLangB_stage1 :
    mapStrings (AdvancedBrowserFingerprint.stableFeatures (langState ["tr-TR", "en-US"]))
      = .ok ["webgl:undefined", "webgl_vendor:undefined", "", "", "", "audio:", "audio_sr:", "audio_ch:", "canvas:", "hw_cores:", "hw_mem:", "screen:undefinedxundefined", "screen_depth:undefined", "screen_dpr:undefined", "tz:", "tz_offset:", "lang:tr-TR,en-US", "math_tan:", "math_sin:", "math_acos:", "\x7b\x7d", "platform:", "vendor:", "touch:0", "speech:0", "plugins:0", "error:", "rect:x"] := by decide

set_option maxRecDepth 4000 in
lemma abfLangB_stage2 :
    String.intercalate "|" ["webgl:undefined", "webgl_vendor:undefined", "", "", "", "audio:", "audio_sr:", "audio_ch:", "canvas:", "hw_cores:", "hw_mem:", "screen:undefinedxundefined", "screen_depth:undefined", "screen_dpr:undefined", "tz:", "tz_offset:", "lang:tr-TR,en-US", "math_tan:", "math_sin:", "math_acos:", "\x7b\x7d", "platform:", "vendor:", "touch:0", "speech:0", "plugins:0", "error:", "rect:x"]
      = "webgl:undefined|webgl_ve" ++ ("ndor:undefined||||audio:" ++ ("|audio_sr:|audio_ch:|can" ++ ("vas:|hw_cores:|hw_mem:|s" ++ ("creen:undefinedxundefine" ++ ("d|screen_depth:undefined" ++ ("|screen_dpr:undefined|tz" ++ (":|tz_offset:|lang:tr-TR," ++ ("en-US|math_tan:|math_sin" ++ (":|math_acos:|\x7b\x7d|platform" ++ (":|vendor:|touch:0|speech" ++ (":0|plugins:0|error:|rect" ++ ":x"))))))))))) := by decide

set_option maxRecDepth 4000 in
lemma abfLangB_stage3 : hashString ("webgl:undefined|webgl_ve" ++ ("ndor:undefined||||audio:" ++ ("|audio_sr:|audio_ch:|can" ++ ("vas:|hw_cores:|hw_mem:|s" ++ ("creen:undefinedxundefine" ++ ("d|screen_depth:undefined" ++ ("|screen_dpr:undefined|tz" ++ (":|tz_offset:|lang:tr-TR," ++ ("en-US|math_tan:|math_sin" ++ (":|math_acos:|\x7b\x7d|platform" ++ (":|vendor:|touch:0|speech" ++ (":0|plugins:0|error:|rect" ++ ":x")))))))))))) = "8378a013" := by
  have f0 : hashFoldFrom 5381 "webgl:undefined|webgl_ve" = 1113955625 := by decide
  have f1 : hashFoldFrom 1113955625 "ndor:undefined||||audio:" = 3730239876 := by decide
  have f2 : hashFoldFrom 3730239876 "|audio_sr:|audio_ch:|can" = 2230680208 := by decide
  have f3 : hashFoldFrom 2230680208 "vas:|hw_cores:|hw_mem:|s" = 2030519334 := by decide
  have f4 : hashFoldFrom 2030519334 "creen:undefinedxundefine" = 73089445 := by decide
  have f5 : hashFoldFrom 73089445 "d|screen_depth:undefined" = 1954270917 := by decide
  have f6 : hashFoldFrom 1954270917 "|screen_dpr:undefined|tz" = 2479780380 := by decide
  have f7 : hashFoldFrom 2479780380 ":|tz_offset:|lang:tr-TR," = 662727741 := by decide
  have f8 : hashFoldFrom 662727741 "en-US|math_tan:|math_sin" = 1614659606 := by decide
  have f9 : hashFoldFrom 1614659606 ":|math_acos:|\x7b\x7d|platform" = 4207775306 := by decide
  have f10 : hashFoldFrom 4207775306 ":|vendor:|touch:0|speech" = 2424416421 := by decide
  have f11 : hashFoldFrom 2424416421 ":0|plugins:0|error:|rect" = 3665959905 := by decide
  have f12 : hashFoldFrom 3665959905 ":x" = 2205720595 := by decide
  have hx : jsHashHex 2205720595 = "8378a013" := by decide
  rw [hashString_eq_hex_foldFrom, hashFoldFrom_append, f0, hashFoldFrom_append, f1, hashFoldFrom_append, f2, hashFoldFrom_append, f3, hashFoldFrom_append, f4, hashFoldFrom_append, f5, hashFoldFrom_append, f6, hashFoldFrom_append, f7, hashFoldFrom_append, f8, hashFoldFrom_append, f9, hashFoldFrom_append, f10, hashFoldFrom_append, f11, f12, hx]

lemma abfLangB_hash : AdvancedBrowserFingerprint.getHash (langState ["tr-TR", "en-US"]) = .ok "8378a013" :=
  abf_getHash_eval abfLangB_stage1 abfLangB_stage2 abfLangB_stage3


set_option maxRecDepth 4000 in
lemma abfWr0_stage1 :
    mapStrings (AdvancedBrowserFingerprint.stableFeatures (JSValue.vobj [("webglRenderer", JSValue.vstr "0")]))
      = .ok ["webgl:0", "webgl_vendor:undefined", "", "", "", "audio:", "audio_sr:", "audio_ch:", "canvas:", "hw_cores:", "hw_mem:", "screen:undefinedxundefined", "screen_depth:undefined", "screen_dpr:undefined", "tz:", "tz_offset:", "lang:", "math_tan:", "math_sin:", "math_acos:", "\x7b\x7d", "platform:", "vendor:", "touch:0", "speech:0", "plugins:0", "error:", "rect:x"] := by decide

set_option maxRecDepth 4000 in
lemma abfWr0_stage2 :
    String.intercalate "|" ["webgl:0", "webgl_vendor:undefined", "", "", "", "audio:", "audio_sr:", "audio_ch:", "canvas:", "hw_cores:", "hw_mem:", "screen:undefinedxundefined", "screen_depth:undefined", "screen_dpr:undefined", "tz:", "tz_offset:", "lang:", "math_tan:", "math_sin:", "math_acos:", "\x7b\x7d", "platform:", "vendor:", "touch:0", "speech:0", "plugins:0", "error:", "rect:x"]
      = "webgl:0|webgl_vendor:und" ++ ("efined||||audio:|audio_s" ++ ("r:|audio_ch:|canvas:|hw_" ++ ("cores:|hw_mem:|screen:un" ++ ("definedxundefined|screen" ++ ("_depth:undefined|screen_" ++ ("dpr:undefined|tz:|tz_off" ++ ("set:|lang:|math_tan:|mat" ++ ("h_sin:|math_acos:|\x7b\x7d|pla" ++ ("tform:|vendor:|touch:0|s" ++ ("peech:0|plugins:0|error:" ++ "|rect:x")))))))))) := by decide

set_option maxRecDepth 4000 in
lemma abfWr0_stage3 : hashString ("webgl:0|webgl_vendor:und" ++ ("efined||||audio:|audio_s" ++ ("r:|audio_ch:|canvas:|hw_" ++ ("cores:|hw_mem:|screen:un" ++ ("definedxundefined|screen" ++ ("_depth:undefined|screen_" ++ ("dpr:undefined|tz:|tz_off" ++ ("set:|lang:|math_tan:|mat" ++ ("h_sin:|math_acos:|\x7b\x7d|pla" ++ ("tform:|vendor:|touch:0|s" ++ ("peech:0|plugins:0|error:" ++ "|rect:x"))))))))))) = "3a600aa4" := by
  have f0 : hashFoldFrom 5381 "webgl:0|webgl_vendor:und" = 1304233499 := by decide
  have f1 : hashFoldFrom 1304233499 "efined||||audio:|audio_s" = 166016162 := by decide
  have f2 : hashFoldFrom 166016162 "r:|audio_ch:|canvas:|hw_" = 1398636652 := by decide
  have f3 : hashFoldFrom 1398636652 "cores:|hw_mem:|screen:un" = 2640554446 := by decide
  have f4 : hashFoldFrom 2640554446 "definedxundefined|screen" = 343560931 := by decide
  have f5 : hashFoldFrom 343560931 "_depth:undefined|screen_" = 2513703422 := by decide
  have f6 : hashFoldFrom 2513703422 "dpr:undefined|tz:|tz_off" = 1465068824 := by decide
  have f7 : hashFoldFrom 1465068824 "set:|lang:|math_tan:|mat" = 936249366 := by decide
  have f8 : hashFoldFrom 936249366 "h_sin:|math_acos:|\x7b\x7d|pla" = 2639380051 := by decide
  have f9 : hashFoldFrom 2639380051 "tform:|vendor:|touch:0|s" = 3924531153 := by decide
  have f10 : hashFoldFrom 3924531153 "peech:0|plugins:0|error:" = 824436904 := by decide
  have f11 : hashFoldFrom 824436904 "|rect:x" = 979372708 := by decide
  have hx : jsHashHex 979372708 = "3a600aa4" := by decide
  rw [hashString_eq_hex_foldFrom, hashFoldFrom_append, f0, hashFoldFrom_append, f1, hashFoldFrom_append, f2, hashFoldFrom_append, f3, hashFoldFrom_append, f4, hashFoldFrom_append, f5, hashFoldFrom_append, f6, hashFoldFrom_append, f7, hashFoldFrom_append, f8, hashFoldFrom_append, f9, hashFoldFrom_append, f10, f11, hx]

lemma abfWr0_hash : AdvancedBrowserFingerprint.getHash (JSValue.vobj [("webglRenderer", JSValue.vstr "0")]) = .ok "3a600aa4" :=
  abf_getHash_eval abfWr0_stage1 abfWr0_stage2 abfWr0_stage3


set_option maxRecDepth 4000 in
lemma abfWr26_stage1 :
    mapStrings (AdvancedBrowserFingerprint.stableFeatures (JSValue.vobj [("webglRenderer", JSValue.vstr "26")]))
      = .ok ["webgl:26", "webgl_vendor:undefined", "", "", "", "audio:", "audio_sr:", "audio_ch:", "canvas:", "hw_cores:", "hw_mem:", "screen:undefinedxundefined", "screen_depth:undefined", "screen_dpr:undefined", "tz:", "tz_offset:", "lang:", "math_tan:", "math_sin:", "math_acos:", "\x7b\x7d", "platform:", "vendor:", "touch:0", "speech:0", "plugins:0", "error:", "rect:x"] := by decide

set_option maxRecDepth 4000 in
lemma abfWr26_stage2 :
    String.intercalate "|" ["webgl:26", "webgl_vendor:undefined", "", "", "", "audio:", "audio_sr:", "audio_ch:", "canvas:", "hw_cores:", "hw_mem:", "screen:undefinedxundefined", "screen_depth:undefined", "screen_dpr:undefined", "tz:", "tz_offset:", "lang:", "math_tan:", "math_sin:", "math_acos:", "\x7b\x7d", "platform:", "vendor:", "touch:0", "speech:0", "plugins:0", "error:", "rect:x"]
      = "webgl:26|webgl_vendor:un" ++ ("defined||||audio:|audio_" ++ ("sr:|audio_ch:|canvas:|hw" ++ ("_cores:|hw_mem:|screen:u" ++ ("ndefinedxundefined|scree" ++ ("n_depth:undefined|screen" ++ ("_dpr:undefined|tz:|tz_of" ++ ("fset:|lang:|math_tan:|ma" ++ ("th_sin:|math_acos:|\x7b\x7d|pl" ++ ("atform:|vendor:|touch:0|" ++ ("speech:0|plugins:0|error" ++ ":|rect:x")))))))))) := by decide

set_option maxRecDepth 4000 in
lemma abfWr26_stage3 : hashString ("webgl:26|webgl_vendor:un" ++ ("defined||||audio:|audio_" ++ ("sr:|audio_ch:|canvas:|hw" ++ ("_cores:|hw_mem:|screen:u" ++ ("ndefinedxundefined|scree" ++ ("n_depth:undefined|screen" ++ ("_dpr:undefined|tz:|tz_of" ++ ("fset:|lang:|math_tan:|ma" ++ ("th_sin:|math_acos:|\x7b\x7d|pl" ++ ("atform:|vendor:|touch:0|" ++ ("speech:0|plugins:0|error" ++ ":|rect:x"))))))))))) = "1aa471c" := by
  have f0 : hashFoldFrom 5381 "webgl:26|webgl_vendor:un" = 2839797583 := by decide
  have f1 : hashFoldFrom 2839797583 "defined||||audio:|audio_" = 833029831 := by decide
  have f2 : hashFoldFrom 833029831 "sr:|audio_ch:|canvas:|hw" = 3400611557 := by decide
  have f3 : hashFoldFrom 3400611557 "_cores:|hw_mem:|screen:u" = 1641081304 := by decide
  have f4 : hashFoldFrom 1641081304 "ndefinedxundefined|scree" = 1063726157 := by decide
  have f5 : hashFoldFrom 1063726157 "n_depth:undefined|screen" = 3232994871 := by decide
  have f6 : hashFoldFrom 3232994871 "_dpr:undefined|tz:|tz_of" = 2730296042 := by decide
  have f7 : hashFoldFrom 2730296042 "fset:|lang:|math_tan:|ma" = 2422417370 := by decide
  have f8 : hashFoldFrom 2422417370 "th_sin:|math_acos:|\x7b\x7d|pl" = 1860975658 := by decide
  have f9 : hashFoldFrom 1860975658 "atform:|vendor:|touch:0|" = 465403926 := by decide
  have f10 : hashFoldFrom 465403926 "speech:0|plugins:0|error" = 2430785318 := by decide
  have f11 : hashFoldFrom 2430785318 ":|rect:x" = 27936540 := by decide
  have hx : jsHashHex 27936540 = "1aa471c" := by decide
  rw [hashString_eq_hex_foldFrom, hashFoldFrom_append, f0, hashFoldFrom_append, f1, hashFoldFrom_append, f2, hashFoldFrom_append, f3, hashFoldFrom_append, f4, hashFoldFrom_append, f5, hashFoldFrom_append, f6, hashFoldFrom_append, f7, hashFoldFrom_append, f8, hashFoldFrom_append, f9, hashFoldFrom_append, f10, f11, hx]

lemma abfWr26_hash : AdvancedBrowserFingerprint.getHash (JSValue.vobj [("webglRenderer", JSValue.vstr "26")]) = .ok "1aa471c" :=
  abf_getHash_eval abfWr26_stage1 abfWr26_stage2 abfWr26_stage3


set_option maxRecDepth 4000 in
lemma cssEmpty_stage1 :
    mapStrings (CSSFingerprint.stableFeatures (JSValue.vobj []))
      = .ok ["sb:0x0", "grid:false", "subgrid:false", "vars:false", "fonts:0", "shadow:", "radius:"] := by decide

set_option maxRecDepth 4000 in
lemma cssEmpty_stage2 :
    String.intercalate "|" ["sb:0x0", "grid:false", "subgrid:false", "vars:false", "fonts:0", "shadow:", "radius:"]
      = "sb:0x0|grid:false|subgri" ++ ("d:false|vars:false|fonts" ++ ":0|shadow:|radius:") := by decide

set_option maxRecDepth 4000 in
lemma cssEmpty_stage3 : hashString ("sb:0x0|grid:false|subgri" ++ ("d:false|vars:false|fonts" ++ ":0|shadow:|radius:")) = "37d4172b" := by
  have f0 : hashFoldFrom 5381 "sb:0x0|grid:false|subgri" = 2446388667 := by decide
  have f1 : hashFoldFrom 2446388667 "d:false|vars:false|fonts" = 2376981831 := by decide
  have f2 : hashFoldFrom 2376981831 ":0|shadow:|radius:" = 936646443 := by decide
  have hx : jsHashHex 936646443 = "37d4172b" := by decide
  rw [hashString_eq_hex_foldFrom, hashFoldFrom_append, f0, hashFoldFrom_append, f1, f2, hx]

lemma cssEmpty_hash : CSSFingerprint.getHash (JSValue.vobj []) = .ok "37d4172b" :=
  css_getHash_eval cssEmpty_stage1 cssEmpty_stage2 cssEmpty_stage3


set_option maxRecDepth 4000 in
lemma cssAB_stage1 :
    mapStrings (CSSFingerprint.stableFeatures (JSValue.vobj [("boxShadow", JSValue.vstr "ab")]))
      = .ok ["sb:0x0", "grid:false", "subgrid:false", "vars:false", "fonts:0", "shadow:ab", "radius:"] := by decide

set_option maxRecDepth 4000 in
lemma cssAB_stage2 :
    String.intercalate "|" ["sb:0x0", "grid:false", "subgrid:false", "vars:false", "fonts:0", "shadow:ab", "radius:"]
      = "sb:0x0|grid:false|subgri" ++ ("d:false|vars:false|fonts" ++ ":0|shadow:ab|radius:") := by decide

set_option maxRecDepth 4000 in
lemma cssAB_stage3 : hashString ("sb:0x0|grid:false|subgri" ++ ("d:false|vars:false|fonts" ++ ":0|shadow:ab|radius:")) = "d5119e4e" := by
  have f0 : hashFoldFrom 5381 "sb:0x0|grid:false|subgri" = 2446388667 := by decide
  have f1 : hashFoldFrom 2446388667 "d:false|vars:false|fonts" = 2376981831 := by decide
  have f2 : hashFoldFrom 2376981831 ":0|shadow:ab|radius:" = 3574701646 := by decide
  have hx : jsHashHex 3574701646 = "d5119e4e" := by decide
  rw [hashString_eq_hex_foldFrom, hashFoldFrom_append, f0, hashFoldFrom_append, f1, f2, hx]

lemma cssAB_hash : CSSFingerprint.getHash (JSValue.vobj [("boxShadow", JSValue.vstr "ab")]) = .ok "d5119e4e" :=
  css_getHash_eval cssAB_stage1 cssAB_stage2 cssAB_stage3


set_option maxRecDepth 4000 in
lemma cssBA_stage1 :
    mapStrings (CSSFingerprint.stableFeatures (JSValue.vobj [("boxShadow", JSValue.vstr "bA")]))
      = .ok ["sb:0x0", "grid:false", "subgrid:false", "vars:false", "fonts:0", "shadow:bA", "radius:"] := by decide

set_option maxRecDepth 4000 in
lemma cssBA_stage2 :
    String.intercalate "|" ["sb:0x0", "grid:false", "subgrid:false", "vars:false", "fonts:0", "shadow:bA", "radius:"]
      = "sb:0x0|grid:false|subgri" ++ ("d:false|vars:false|fonts" ++ ":0|shadow:bA|radius:") := by decide

set_option maxRecDepth 4000 in
lemma cssBA_stage3 : hashString ("sb:0x0|grid:false|subgri" ++ ("d:false|vars:false|fonts" ++ ":0|shadow:bA|radius:")) = "d5119e4e" := by
  have f0 : hashFoldFrom 5381 "sb:0x0|grid:false|subgri" = 2446388667 := by decide
  have f1 : hashFoldFrom 2446388667 "d:false|vars:false|fonts" = 2376981831 := by decide
  have f2 : hashFoldFrom 2376981831 ":0|shadow:bA|radius:" = 3574701646 := by decide
  have hx : jsHashHex 3574701646 = "d5119e4e" := by decide
  rw [hashString_eq_hex_foldFrom, hashFoldFrom_append, f0, hashFoldFrom_append, f1, f2, hx]

lemma cssBA_hash : CSSFingerprint.getHash (JSValue.vobj [("boxShadow", JSValue.vstr "bA")]) = .ok "d5119e4e" :=
  css_getHash_eval cssBA_stage1 cssBA_stage2 cssBA_stage3


set_option maxRecDepth 4000 in
lemma cssX_stage1 :
    mapStrings (CSSFingerprint.stableFeatures (JSValue.vobj [("boxShadow", JSValue.vstr "x")]))
      = .ok ["sb:0x0", "grid:false", "subgrid:false", "vars:false", "fonts:0", "shadow:x", "radius:"] := by decide

set_option maxRecDepth 4000 in
lemma cssX_stage2 :
    String.intercalate "|" ["sb:0x0", "grid:false", "subgrid:false", "vars:false", "fonts:0", "shadow:x", "radius:"]
      = "sb:0x0|grid:false|subgri" ++ ("d:false|vars:false|fonts" ++ ":0|shadow:x|radius:") := by decide

set_option maxRecDepth 4000 in
lemma cssX_stage3 : hashString ("sb:0x0|grid:false|subgri" ++ ("d:false|vars:false|fonts" ++ ":0|shadow:x|radius:")) = "b0351943" := by
  have f0 : hashFoldFrom 5381 "sb:0x0|grid:false|subgri" = 2446388667 := by decide
  have f1 : hashFoldFrom 2446388667 "d:false|vars:false|fonts" = 2376981831 := by decide
  have f2 : hashFoldFrom 2376981831 ":0|shadow:x|radius:" = 2956269891 := by decide
  have hx : jsHashHex 2956269891 = "b0351943" := by decide
  rw [hashString_eq_hex_foldFrom, hashFoldFrom_append, f0, hashFoldFrom_append, f1, f2, hx]

lemma cssX_hash : CSSFingerprint.getHash (JSValue.vobj [("boxShadow", JSValue.vstr "x")]) = .ok "b0351943" :=
  css_getHash_eval cssX_stage1 cssX_stage2 cssX_stage3


set_option maxRecDepth 4000 in
lemma advEmpty_stage1 :
    mapStrings (AdvancedCSSFingerprint.stableFeatures (JSValue.vobj []))
      = .ok ["fonts:0", "colorScheme:undefined", "reducedMotion:undefined", "contrast:undefined", "forcedColors:undefined", "invertedColors:undefined", "orientation:undefined", "pointer:undefined", "hover:undefined", "displayMode:undefined", "resolution:undefinedxundefined", "dpr:undefined", "colorGamut:undefined", "dynamicRange:undefined", "monochrome:undefined", "grid:undefined", "update:undefined"] := by decide

set_option maxRecDepth 4000 in
lemma advEmpty_stage2 :
    String.intercalate "|" ["fonts:0", "colorScheme:undefined", "reducedMotion:undefined", "contrast:undefined", "forcedColors:undefined", "invertedColors:undefined", "orientation:undefined", "pointer:undefined", "hover:undefined", "displayMode:undefined", "resolution:undefinedxundefined", "dpr:undefined", "colorGamut:undefined", "dynamicRange:undefined", "monochrome:undefined", "grid:undefined", "update:undefined"]
      = "fonts:0|colorScheme:unde" ++ ("fined|reducedMotion:unde" ++ ("fined|contrast:undefined" ++ ("|forcedColors:undefined|" ++ ("invertedColors:undefined" ++ ("|orientation:undefined|p" ++ ("ointer:undefined|hover:u" ++ ("ndefined|displayMode:und" ++ ("efined|resolution:undefi" ++ ("nedxundefined|dpr:undefi" ++ ("ned|colorGamut:undefined" ++ ("|dynamicRange:undefined|" ++ ("monochrome:undefined|gri" ++ ("d:undefined|update:undef" ++ "ined"))))))))))))) := by decide

set_option maxRecDepth 4000 in
lemma advEmpty_stage3 : hashString ("fonts:0|colorScheme:unde" ++ ("fined|reducedMotion:unde" ++ ("fined|contrast:undefined" ++ ("|forcedColors:undefined|" ++ ("invertedColors:undefined" ++ ("|orientation:undefined|p" ++ ("ointer:undefined|hover:u" ++ ("ndefined|displayMode:und" ++ ("efined|resolution:undefi" ++ ("nedxundefined|dpr:undefi" ++ ("ned|colorGamut:undefined" ++ ("|dynamicRange:undefined|" ++ ("monochrome:undefined|gri" ++ ("d:undefined|update:undef" ++ "ined")))))))))))))) = "83132084" := by
  have f0 : hashFoldFrom 5381 "fonts:0|colorScheme:unde" = 4003192879 := by decide
  have f1 : hashFoldFrom 4003192879 "fined|reducedMotion:unde" = 4007809769 := by decide
  have f2 : hashFoldFrom 4007809769 "fined|contrast:undefined" = 1701014053 := by decide
  have f3 : hashFoldFrom 1701014053 "|forcedColors:undefined|" = 1463037038 := by decide
  have f4 : hashFoldFrom 1463037038 "invertedColors:undefined" = 856535725 := by decide
  have f5 : hashFoldFrom 856535725 "|orientation:undefined|p" = 2043396941 := by decide
  have f6 : hashFoldFrom 2043396941 "ointer:undefined|hover:u" = 137369273 := by decide
  have f7 : hashFoldFrom 137369273 "ndefined|displayMode:und" = 83669102 := by decide
  have f8 : hashFoldFrom 83669102 "efined|resolution:undefi" = 1562879390 := by decide
  have f9 : hashFoldFrom 1562879390 "nedxundefined|dpr:undefi" = 1860766454 := by decide
  have f10 : hashFoldFrom 1860766454 "ned|colorGamut:undefined" = 1947837874 := by decide
  have f11 : hashFoldFrom 1947837874 "|dynamicRange:undefined|" = 2868961928 := by decide
  have f12 : hashFoldFrom 2868961928 "monochrome:undefined|gri" = 3280182121 := by decide
  have f13 : hashFoldFrom 3280182121 "d:undefined|update:undef" = 1117886820 := by decide
  have f14 : hashFoldFrom 1117886820 "ined" = 2199068804 := by decide
  have hx : jsHashHex 2199068804 = "83132084" := by decide
  rw [hashString_eq_hex_foldFrom, hashFoldFrom_append, f0, hashFoldFrom_append, f1, hashFoldFrom_append, f2, hashFoldFrom_append, f3, hashFoldFrom_append, f4, hashFoldFrom_append, f5, hashFoldFrom_append, f6, hashFoldFrom_append, f7, hashFoldFrom_append, f8, hashFoldFrom_append, f9, hashFoldFrom_append, f10, hashFoldFrom_append, f11, hashFoldFrom_append, f12, hashFoldFrom_append, f13, f14, hx]

lemma advEmpty_hash : AdvancedCSSFingerprint.getHash (JSValue.vobj []) = .ok "83132084" :=
  adv_getHash_eval advEmpty_stage1 advEmpty_stage2 advEmpty_stage3

/-! ## The claims -/

/-- C2: the hash fold of `getHash` is exactly the reference djb2 variant:
starting from `5381`, each character code `c` takes `h` to
`(33 * h + c) mod 2^32` — the JavaScript expression
`((hash << 5) + hash) + charCode` followed by `>>> 0` computes exactly that —
and the result is rendered as the lowercase hexadecimal of the resulting
unsigned 32-bit integer. -/
theorem c2_djb2_fold_matches_spec :
    (∀ h c : Nat, hashStep h c = (33 * h + c) % 4294967296)
    ∧ (∀ s : String, jsHashFold (charCodes s) = djb2Fold (charCodes s))
    ∧ (∀ s : String, hashString s = jsHashHex (djb2Fold (charCodes s))) := by
  refine ⟨?_, ?_, ?_⟩
  · intro h c
    exact hashStep_eq_djb2Step h c
  · intro s
    exact jsHashFold_eq_djb2Fold _
  · intro s
    unfold hashString
    rw [jsHashFold_eq_djb2Fold]

/-- C6: two fingerprint states that agree on every field outside the
volatile families (`battery`, `network`, `performance`, `storageQuota`)
produce the same hash: those fields are never read by `getHash`. -/
theorem c6_volatile_fields_excluded (s1 s2 : JSValue)
    (h : ∀ k : String, k ∉ volatileKeys → jsGet s1 k = jsGet s2 k) :
    AdvancedBrowserFingerprint.getHash s1
      = AdvancedBrowserFingerprint.getHash s2 := by
  apply abf_getHash_congr
  unfold AdvancedBrowserFingerprint.stableFeatures
  rw [h "webglRenderer" (by decide), h "webglVendor" (by decide),
      h "webgl" (by decide), h "audio" (by decide), h "canvas" (by decide),
      h "hardwareConcurrency" (by decide), h "deviceMemory" (by decide),
      h "screen" (by decide), h "timezone" (by decide),
      h "languages" (by decide), h "mathConstants" (by decide),
      h "canvasTextMetrics" (by decide), h "navigator" (by decide),
      h "maxTouchPoints" (by decide), h "speechSynthesis" (by decide),
      h "plugins" (by decide), h "errorStack" (by decide),
      h "domRect" (by decide)]

/-- C6 witness: two states that differ only in `battery` hash identically. -/
theorem c6_volatile_fields_witness :
    AdvancedBrowserFingerprint.getHash (JSValue.vobj [("battery", JSValue.vnum 80)])
      = AdvancedBrowserFingerprint.getHash (JSValue.vobj [("battery", JSValue.vnum 15)]) :=
  c6_volatile_fields_excluded _ _ (fun k hk => by
    have hb : k ≠ "battery" := by
      intro he
      subst he
      exact hk (by decide)
    simp [jsGet, jsLookup, hb])

/-- C9: `getHash` is a pure function of the stable feature content only:
states with identical stable-feature lists hash identically (there is no
timestamp, salt, or other input in the embedding of lines 708-783). -/
theorem c9_hash_deterministic (s1 s2 : JSValue)
    (h : AdvancedBrowserFingerprint.stableFeatures s1
       = AdvancedBrowserFingerprint.stableFeatures s2) :
    AdvancedBrowserFingerprint.getHash s1
      = AdvancedBrowserFingerprint.getHash s2 :=
  abf_getHash_congr h

/-- C9 witness: the determinism instance at a concrete state. -/
theorem c9_hash_deterministic_witness :
    AdvancedBrowserFingerprint.getHash (langState ["en-US"])
      = AdvancedBrowserFingerprint.getHash (langState ["en-US"]) :=
  c9_hash_deterministic (langState ["en-US"]) (langState ["en-US"]) rfl

set_option maxRecDepth 4000 in
/-- C10: calling `getHash` on a fingerprint whose `generate()` never ran
(state is the empty object) does not throw: every access tolerates the
missing fields, and the result is the well-defined hash of the all-sentinel
canonical string. -/
theorem c10_getHash_empty_state_total :
    AdvancedBrowserFingerprint.getHash (JSValue.vobj [])
      = .ok (hashString "webgl:undefined|webgl_vendor:undefined||||audio:|audio_sr:|audio_ch:|canvas:|hw_cores:|hw_mem:|screen:undefinedxundefined|screen_depth:undefined|screen_dpr:undefined|tz:|tz_offset:|lang:|math_tan:|math_sin:|math_acos:|\x7b\x7d|platform:|vendor:|touch:0|speech:0|plugins:0|error:|rect:x") := by
  have h2 : ("webgl:undefined|webgl_vendor:undefined||||audio:|audio_sr:|audio_ch:|canvas:|hw_cores:|hw_mem:|screen:undefinedxundefined|screen_depth:undefined|screen_dpr:undefined|tz:|tz_offset:|lang:|math_tan:|math_sin:|math_acos:|\x7b\x7d|platform:|vendor:|touch:0|speech:0|plugins:0|error:|rect:x" : String)
      = "webgl:undefined|webgl_ve" ++ ("ndor:undefined||||audio:" ++ ("|audio_sr:|audio_ch:|can" ++ ("vas:|hw_cores:|hw_mem:|s" ++ ("creen:undefinedxundefine" ++ ("d|screen_depth:undefined" ++ ("|screen_dpr:undefined|tz" ++ (":|tz_offset:|lang:|math_" ++ ("tan:|math_sin:|math_acos" ++ (":|\x7b\x7d|platform:|vendor:|t" ++ ("ouch:0|speech:0|plugins:" ++ "0|error:|rect:x")))))))))) := by
    decide
  rw [h2, abfEmpty_stage3]
  exact abfEmpty_hash

/-- C7 counterexample: the hexadecimal rendering is not fixed-width — two
states whose hashes render with different lengths (8 and 7 characters). -/
theorem c7_hash_not_fixed_width_cex :
    AdvancedBrowserFingerprint.getHash
        (JSValue.vobj [("webglRenderer", JSValue.vstr "0")]) = .ok "3a600aa4"
    ∧ AdvancedBrowserFingerprint.getHash
        (JSValue.vobj [("webglRenderer", JSValue.vstr "26")]) = .ok "1aa471c"
    ∧ ("3a600aa4" : String).length ≠ ("1aa471c" : String).length :=
  ⟨abfWr0_hash, abfWr26_hash, by decide⟩

/-- C7 (amended): every hash string returned by `getHash` is natural-length
lowercase hexadecimal of an unsigned 32-bit integer: between 1 and 8
characters, all of them lowercase hex digits (no fixed zero-padding). -/
theorem c7_hash_hex_bounded (s : JSValue) (h : String)
    (hh : AdvancedBrowserFingerprint.getHash s = .ok h) :
    1 ≤ h.length ∧ h.length ≤ 8 ∧ ∀ c ∈ h.data, c ∈ hexChars := by
  unfold AdvancedBrowserFingerprint.getHash at hh
  obtain ⟨fs, _, hh⟩ := exceptBindOk hh
  simp only [pure, Except.pure] at hh
  injection hh with hh
  subst hh
  unfold hashString jsHashHex
  refine ⟨hexDigits_length_pos _, ?_, ?_⟩
  · refine hexDigits_length_le 8 _ (by omega) ?_
    have h16 : (16 : Nat) ^ 8 = 4294967296 := by norm_num
    rw [h16]
    exact jsHashFold_lt _
  · intro c hc
    exact hexDigits_mem_hexChars _ c hc

/-- C7 witness: the bounds instantiated at the empty state's hash. -/
theorem c7_hash_hex_witness :
    1 ≤ ("c2429606" : String).length ∧ ("c2429606" : String).length ≤ 8
    ∧ ∀ c ∈ ("c2429606" : String).data, c ∈ hexChars :=
  c7_hash_hex_bounded (JSValue.vobj []) "c2429606" abfEmpty_hash

/-- C3 counterexample: permuting a list-valued probe result can change the
hash — the `languages` list is joined in its given order, not sorted. -/
theorem c3_languages_order_changes_hash_cex :
    (["en-US", "tr-TR"] : List String).Perm ["tr-TR", "en-US"]
    ∧ AdvancedBrowserFingerprint.getHash (langState ["en-US", "tr-TR"])
        ≠ AdvancedBrowserFingerprint.getHash (langState ["tr-TR", "en-US"]) := by
  refine ⟨by decide, ?_⟩
  rw [abfLangA_hash, abfLangB_hash]
  intro hcontra
  injection hcontra with hcontra
  exact absurd hcontra (by decide)

/-- C3 (amended): the invariance does hold for the field the code sorts —
permuting the `webgl.extensions` list never changes the hash, because the
extraction rule sorts it before joining. -/
theorem c3_sorted_extensions_perm_invariant (l1 l2 : List String)
    (hp : l1.Perm l2) :
    AdvancedBrowserFingerprint.getHash (extState l1)
      = AdvancedBrowserFingerprint.getHash (extState l2) := by
  apply abf_getHash_congr
  have e1 : AdvancedBrowserFingerprint.stableFeatures (extState l1)
      = .ok (extFeatureList l1) := rfl
  have e2 : AdvancedBrowserFingerprint.stableFeatures (extState l2)
      = .ok (extFeatureList l2) := rfl
  rw [e1, e2]
  have hs : List.insertionSort jsSortLE (l1.map JSValue.vstr)
      = List.insertionSort jsSortLE (l2.map JSValue.vstr) := by
    rw [insertionSort_map_vstr, insertionSort_map_vstr, insertionSort_perm_eq hp]
  unfold extFeatureList
  rw [hs]

/-- C3 witness: the sorted-extensions invariance at a concrete permutation. -/
theorem c3_sorted_extensions_witness :
    AdvancedBrowserFingerprint.getHash (extState ["b", "a"])
      = AdvancedBrowserFingerprint.getHash (extState ["a", "b"]) :=
  c3_sorted_extensions_perm_invariant ["b", "a"] ["a", "b"] (by decide)

set_option maxRecDepth 4000 in
/-- C4 counterexample: a change in the basic engine's stable feature set
(`boxShadow` "ab" versus "bA") that leaves the composite hash unchanged:
the 32-bit fold collides, so the composite does not always change when a
constituent's features change. -/
theorem c4_combined_collision_cex :
    mapStrings (CSSFingerprint.stableFeatures
        (JSValue.vobj [("boxShadow", JSValue.vstr "ab")]))
      ≠ mapStrings (CSSFingerprint.stableFeatures
        (JSValue.vobj [("boxShadow", JSValue.vstr "bA")]))
    ∧ CombinedCSSFingerprint.getCombinedHash
        (JSValue.vobj [("boxShadow", JSValue.vstr "ab")]) (JSValue.vobj [])
      = CombinedCSSFingerprint.getCombinedHash
        (JSValue.vobj [("boxShadow", JSValue.vstr "bA")]) (JSValue.vobj []) := by
  constructor
  · rw [cssAB_stage1, cssBA_stage1]
    intro hcontra
    injection hcontra with hcontra
    exact absurd hcontra (by decide)
  · have hcomb : hashString ("d5119e4e" ++ "|" ++ "83132084") = "8507e0d0" := by
      decide
    rw [getCombinedHash_eval cssAB_hash advEmpty_hash hcomb,
        getCombinedHash_eval cssBA_hash advEmpty_hash hcomb]

/-- C4 (amended): the forward direction holds — runs with identical stable
feature sets in both engines yield the same composite hash; the converse
fails because the 32-bit fold admits collisions (see the counterexample). -/
theorem c4_combined_hash_of_equal_features (b1 a1 b2 a2 : JSValue)
    (hb : CSSFingerprint.stableFeatures b1 = CSSFingerprint.stableFeatures b2)
    (ha : AdvancedCSSFingerprint.stableFeatures a1
        = AdvancedCSSFingerprint.stableFeatures a2) :
    CombinedCSSFingerprint.getCombinedHash b1 a1
      = CombinedCSSFingerprint.getCombinedHash b2 a2 := by
  unfold CombinedCSSFingerprint.getCombinedHash CSSFingerprint.getHash
    AdvancedCSSFingerprint.getHash
  rw [hb, ha]

/-- C4 witness: the forward direction at concrete states. -/
theorem c4_combined_hash_witness :
    CombinedCSSFingerprint.getCombinedHash (JSValue.vobj []) (JSValue.vobj [])
      = CombinedCSSFingerprint.getCombinedHash (JSValue.vobj []) (JSValue.vobj []) :=
  c4_combined_hash_of_equal_features (JSValue.vobj []) (JSValue.vobj [])
    (JSValue.vobj []) (JSValue.vobj []) rfl rfl

/-- C5: `CombinedCSSFingerprint.generate` computes the per-engine `hash`
fields on freshly constructed, empty-state instances, never on the data it
returns: whatever the generated data, `basic.hash` and `advanced.hash` are
the two constants below, and a concrete data value shows they differ in
general from the per-engine hash that `getCombinedHash` folds. -/
theorem c5_generate_hashes_fresh_instances :
    (∀ b a r, CombinedCSSFingerprint.generate b a = .ok r →
      r.basicHash = "37d4172b" ∧ r.advancedHash = "83132084")
    ∧ CSSFingerprint.getHash (JSValue.vobj [("boxShadow", JSValue.vstr "x")])
        = .ok "b0351943"
    ∧ ("b0351943" : String) ≠ "37d4172b" := by
  refine ⟨?_, cssX_hash, by decide⟩
  intro b a r h
  unfold CombinedCSSFingerprint.generate at h
  obtain ⟨bh, hbh, h⟩ := exceptBindOk h
  obtain ⟨ah, hah, h⟩ := exceptBindOk h
  obtain ⟨c, _, h⟩ := exceptBindOk h
  rw [cssEmpty_hash] at hbh
  injection hbh with hbh
  rw [advEmpty_hash] at hah
  injection hah with hah
  simp only [pure, Except.pure] at h
  injection h with h
  subst h
  subst hbh
  subst hah
  exact ⟨rfl, rfl⟩

set_option maxRecDepth 4000 in
/-- C5 witness: the fresh-instance constants at a concrete generated record
whose data-derived hash differs from the reported one. -/
theorem c5_generate_hashes_witness :
    (CombinedResult.mk (JSValue.vobj [("boxShadow", JSValue.vstr "x")])
        "37d4172b" (JSValue.vobj []) "83132084" "a6fd7049").basicHash
      = "37d4172b"
    ∧ (CombinedResult.mk (JSValue.vobj [("boxShadow", JSValue.vstr "x")])
        "37d4172b" (JSValue.vobj []) "83132084" "a6fd7049").advancedHash
      = "83132084" :=
  c5_generate_hashes_fresh_instances.1
    (JSValue.vobj [("boxShadow", JSValue.vstr "x")]) (JSValue.vobj []) _
    (by
      have hcomb : CombinedCSSFingerprint.getCombinedHash
          (JSValue.vobj [("boxShadow", JSValue.vstr "x")]) (JSValue.vobj [])
          = .ok "a6fd7049" :=
        getCombinedHash_eval cssX_hash advEmpty_hash (by decide)
      unfold CombinedCSSFingerprint.generate
      rw [cssEmpty_hash, exceptOkBind, advEmpty_hash, exceptOkBind, hcomb,
        exceptOkBind]
      rfl)

/-- C1 counterexample: an exception inside `detectPlugins` (whose body has
no `try`/`catch`) is not caught at the probe boundary: it rejects the
`Promise.all` and `generate()` itself rejects instead of returning a
record. -/
theorem c1_generate_rejects_cex :
    AdvancedBrowserFingerprint.generate pluginsThrowEnv
      = .error "TypeError: navigator.plugins is undefined" := rfl

/-- C1 (amended): the conversion of a probe failure to the `null` sentinel
holds unconditionally only for the fourteen probes whose whole body sits in
`try`/`catch` (webgl, audio, canvas, battery, webglRenderer, webglVendor,
canvasTextMetrics, domRect, mediaDevices, gamepad, network, storageQuota,
indexedDB, webAssembly): whatever those bodies do — throw or not —
`generate()` returns the complete record, with each caught throw converted
to `null` (first conjunct, which assumes nothing about those fourteen
bodies).  The webrtc and speechSynthesis probes are only partially guarded:
a throw in their synchronous prefix is caught and becomes `null` (second
and third conjuncts), but a synchronous throw inside the promise executor
they return without awaiting rejects the probe past the `catch` (fourth and
fifth conjuncts) and hence, like a throw in any of the fourteen unguarded
probes, rejects `Promise.all` and `generate()` itself (see the
counterexample). -/
theorem c1_probe_isolation_amended :
    (∀ (env : ProbeEnv)
      (vW vS v4 v5 v7 v8 v10 v11 v12 v13 v14 v15 v19 v20 v25 : JSValue)
      (ps : List PluginInfo),
      AdvancedBrowserFingerprint.detectWebRTCFingerprint env = .ok vW →
      AdvancedBrowserFingerprint.detectSpeechSynthesis env = .ok vS →
      env.hardwareConcurrencyBody = .ok v4 →
      env.deviceMemoryBody = .ok v5 →
      env.timezoneBody = .ok v7 →
      env.languagesBody = .ok v8 →
      env.navigatorPlugins = .ok ps →
      env.mimeTypesBody = .ok v10 →
      env.touchSupportBody = .ok v11 →
      env.maxTouchPointsBody = .ok v12 →
      env.screenBody = .ok v13 →
      env.navigatorBody = .ok v14 →
      env.performanceBody = .ok v15 →
      env.mathConstantsBody = .ok v19 →
      env.errorStackBody = .ok v20 →
      env.vibrationBody = .ok v25 →
      AdvancedBrowserFingerprint.generate env = .ok [
        ("webgl", tryCatchNull env.webglBody),
        ("audio", tryCatchNull env.audioBody),
        ("canvas", tryCatchNull env.canvasBody),
        ("webrtc", vW),
        ("hardwareConcurrency", v4),
        ("deviceMemory", v5),
        ("battery", tryCatchNull env.batteryBody),
        ("timezone", v7),
        ("languages", v8),
        ("plugins", .vlist (ps.map (fun p => .vobj
          [("name", .vstr p.name), ("description", .vstr p.description),
           ("filename", .vstr p.filename)]))),
        ("mimeTypes", v10),
        ("touchSupport", v11),
        ("maxTouchPoints", v12),
        ("screen", v13),
        ("navigator", v14),
        ("performance", v15),
        ("webglRenderer", tryCatchNull env.webglRendererBody),
        ("webglVendor", tryCatchNull env.webglVendorBody),
        ("canvasTextMetrics", tryCatchNull env.canvasTextMetricsBody),
        ("mathConstants", v19),
        ("errorStack", v20),
        ("domRect", tryCatchNull env.domRectBody),
        ("speechSynthesis", vS),
        ("mediaDevices", tryCatchNull env.mediaDevicesBody),
        ("gamepad", tryCatchNull env.gamepadBody),
        ("vibration", v25),
        ("network", tryCatchNull env.networkBody),
        ("storageQuota", tryCatchNull env.storageQuotaBody),
        ("indexedDB", tryCatchNull env.indexedDBBody),
        ("webAssembly", tryCatchNull env.webAssemblyBody)])
    ∧ (∀ (env : ProbeEnv) (e : String), env.webrtcSetup = .error e →
        AdvancedBrowserFingerprint.detectWebRTCFingerprint env = .ok .vnull)
    ∧ (∀ (env : ProbeEnv) (e : String), env.speechSetup = .error e →
        AdvancedBrowserFingerprint.detectSpeechSynthesis env = .ok .vnull)
    ∧ (∀ (env : ProbeEnv) (e : String), env.webrtcSetup = .ok none →
        env.webrtcExecutor = .error e →
        AdvancedBrowserFingerprint.detectWebRTCFingerprint env = .error e)
    ∧ (∀ (env : ProbeEnv) (e : String), env.speechSetup = .ok none →
        env.speechExecutor = .error e →
        AdvancedBrowserFingerprint.detectSpeechSynthesis env = .error e) := by
  refine ⟨?_, ?_, ?_, ?_, ?_⟩
  · intro env vW vS v4 v5 v7 v8 v10 v11 v12 v13 v14 v15 v19 v20 v25 ps
      hw hs h4 h5 h7 h8 h9 h10 h11 h12 h13 h14 h15 h19 h20 h25
    unfold AdvancedBrowserFingerprint.generate
      AdvancedBrowserFingerprint.detectWebGLFingerprint
      AdvancedBrowserFingerprint.detectAudioContext
      AdvancedBrowserFingerprint.detectCanvasFingerprint
      AdvancedBrowserFingerprint.detectHardwareConcurrency
      AdvancedBrowserFingerprint.detectDeviceMemory
      AdvancedBrowserFingerprint.detectBatteryAPI
      AdvancedBrowserFingerprint.detectTimezoneOffset
      AdvancedBrowserFingerprint.detectLanguages
      AdvancedBrowserFingerprint.detectPlugins
      AdvancedBrowserFingerprint.detectMimeTypes
      AdvancedBrowserFingerprint.detectTouchSupport
      AdvancedBrowserFingerprint.detectMaxTouchPoints
      AdvancedBrowserFingerprint.detectScreenDetails
      AdvancedBrowserFingerprint.detectNavigatorProperties
      AdvancedBrowserFingerprint.detectPerformanceMetrics
      AdvancedBrowserFingerprint.detectWebGLRenderer
      AdvancedBrowserFingerprint.detectWebGLVendor
      AdvancedBrowserFingerprint.detectCanvasTextMetrics
      AdvancedBrowserFingerprint.detectMathConstants
      AdvancedBrowserFingerprint.detectErrorStackTrace
      AdvancedBrowserFingerprint.detectDOMRectPrecision
      AdvancedBrowserFingerprint.detectMediaDevices
      AdvancedBrowserFingerprint.detectGamepadAPI
      AdvancedBrowserFingerprint.detectVibrationAPI
      AdvancedBrowserFingerprint.detectNetworkInformation
      AdvancedBrowserFingerprint.detectStorageQuota
      AdvancedBrowserFingerprint.detectIndexedDBQuirks
      AdvancedBrowserFingerprint.detectWebAssemblySupport
    simp only [hw, hs, h4, h5, h7, h8, h9, h10, h11, h12, h13, h14, h15,
      h19, h20, h25, exceptOkBind]
    rfl
  · intro env e h
    unfold AdvancedBrowserFingerprint.detectWebRTCFingerprint
    rw [h]
  · intro env e h
    unfold AdvancedBrowserFingerprint.detectSpeechSynthesis
    rw [h]
  · intro env e h1 h2
    unfold AdvancedBrowserFingerprint.detectWebRTCFingerprint
    rw [h1]
    exact h2
  · intro env e h1 h2
    unfold AdvancedBrowserFingerprint.detectSpeechSynthesis
    rw [h1]
    exact h2

/-- C1 witness: under an environment where every guarded region throws —
the fourteen wrapped bodies and the two synchronous prefixes — `generate`
still returns the complete record with the caught throws converted to the
`null` sentinel; and at an environment whose webrtc promise executor throws,
that probe (and only through it the run) rejects past its `catch`. -/
theorem c1_probe_isolation_witness :
    AdvancedBrowserFingerprint.generate wrappedThrowEnv = .ok allNullRecord
    ∧ AdvancedBrowserFingerprint.detectWebRTCFingerprint webrtcExecutorThrowEnv
        = .error "NotSupportedError: RTCPeerConnection"
    ∧ AdvancedBrowserFingerprint.detectSpeechSynthesis speechExecutorThrowEnv
        = .error "TypeError: getVoices" :=
  ⟨c1_probe_isolation_amended.1 wrappedThrowEnv
      .vnull .vnull .vnull .vnull .vnull .vnull .vnull .vnull .vnull .vnull
      .vnull .vnull .vnull .vnull .vnull []
      rfl rfl rfl rfl rfl rfl rfl rfl rfl rfl rfl rfl rfl rfl rfl rfl,
   c1_probe_isolation_amended.2.2.2.1 webrtcExecutorThrowEnv
      "NotSupportedError: RTCPeerConnection" rfl rfl,
   c1_probe_isolation_amended.2.2.2.2 speechExecutorThrowEnv
      "TypeError: getVoices" rfl rfl⟩

/-- C8: whenever `generate()` returns a record, that record has exactly the
fixed, declared key list — one field per probe family, none omitted,
independent of the environment and of which probes failed. -/
theorem c8_record_keys_fixed (env : ProbeEnv) (r : List (String × JSValue))
    (h : AdvancedBrowserFingerprint.generate env = .ok r) :
    r.map Prod.fst = fingerprintKeys := by
  unfold AdvancedBrowserFingerprint.generate at h
  obtain ⟨a0, _, h⟩ := exceptBindOk h
  obtain ⟨a1, _, h⟩ := exceptBindOk h
  obtain ⟨a2, _, h⟩ := exceptBindOk h
  obtain ⟨a3, _, h⟩ := exceptBindOk h
  obtain ⟨a4, _, h⟩ := exceptBindOk h
  obtain ⟨a5, _, h⟩ := exceptBindOk h
  obtain ⟨a6, _, h⟩ := exceptBindOk h
  obtain ⟨a7, _, h⟩ := exceptBindOk h
  obtain ⟨a8, _, h⟩ := exceptBindOk h
  obtain ⟨a9, _, h⟩ := exceptBindOk h
  obtain ⟨a10, _, h⟩ := exceptBindOk h
  obtain ⟨a11, _, h⟩ := exceptBindOk h
  obtain ⟨a12, _, h⟩ := exceptBindOk h
  obtain ⟨a13, _, h⟩ := exceptBindOk h
  obtain ⟨a14, _, h⟩ := exceptBindOk h
  obtain ⟨a15, _, h⟩ := exceptBindOk h
  obtain ⟨a16, _, h⟩ := exceptBindOk h
  obtain ⟨a17, _, h⟩ := exceptBindOk h
  obtain ⟨a18, _, h⟩ := exceptBindOk h
  obtain ⟨a19, _, h⟩ := exceptBindOk h
  obtain ⟨a20, _, h⟩ := exceptBindOk h
  obtain ⟨a21, _, h⟩ := exceptBindOk h
  obtain ⟨a22, _, h⟩ := exceptBindOk h
  obtain ⟨a23, _, h⟩ := exceptBindOk h
  obtain ⟨a24, _, h⟩ := exceptBindOk h
  obtain ⟨a25, _, h⟩ := exceptBindOk h
  obtain ⟨a26, _, h⟩ := exceptBindOk h
  obtain ⟨a27, _, h⟩ := exceptBindOk h
  obtain ⟨a28, _, h⟩ := exceptBindOk h
  obtain ⟨a29, _, h⟩ := exceptBindOk h
  simp only [pure, Except.pure] at h
  injection h with h
  subst h
  rfl

/-- C8 witness: the fixed key list observed on the all-null environment's
record. -/
theorem c8_record_keys_witness : allNullRecord.map Prod.fst = fingerprintKeys :=
  c8_record_keys_fixed allNullEnv allNullRecord rfl
